import Mathlib

/-!
Verification development for the pulse-detection core (`src/pulse_detect.c`):
a shallow embedding of the OOK/FSK pulse detectors, the histogram utilities
and the modulation analyzer, together with theorems checking the
natural-language specification against this embedding.

Conventions of the embedding:
* C `int` values are modelled as `Int`; C truncating division (`/` on ints,
  which rounds toward zero) is `Int.tdiv`, written `cdiv` below.
* Assignments into `int16_t` variables reduce the value modulo 2^16 into
  [-32768, 32767] (`toInt16`).
* The C `unsigned` counters (`num_pulses`) are modelled as `Nat`; all
  reachable values stay far below 2^32, so modular wrap is not modelled
  except where a claim is specifically about it (see the analyzer access
  model, which models the `unsigned` wrap of `num_pulses - 1` explicitly).
* The fixed 1200-entry `pulse[]`/`gap[]` arrays are modelled as total
  functions `Nat → Int`; the in-bounds facts are proved separately.
* The float tolerance comparison `abs(bn - bm) < tolerance * max(bn, bm)`
  of the histogram code is modelled with exact rational arithmetic.
-/

/-- C truncating division on `int` (rounds toward zero), e.g. `(-13)/8 = -1`. -/
def cdiv (a b : Int) : Int := Int.tdiv a b

/-- Reduction of an `int` value into an `int16_t` variable (two's complement). -/
def toInt16 (x : Int) : Int := ((x + 32768) % 65536) - 32768

/-- Reduction of an `int`/`unsigned` value into an `int32_t` (two's complement). -/
def toInt32 (x : Int) : Int := ((x + 2147483648) % 4294967296) - 2147483648

/-- Interpretation of an `int` value as `uint32_t` (conversion in C's
`sum / count` where `sum` is `int` and `count` is `unsigned`). -/
def toUInt32val (x : Int) : Nat := (x % 4294967296).toNat

-- OOK adaptive level estimator constants (C names use RATIO in all caps).
def OOK_HIGH_LOW_Ratio : Int := 8
def OOK_MIN_HIGH_LEVEL : Int := 1000
def OOK_MAX_HIGH_LEVEL : Int := 128 * 128
def OOK_MAX_LOW_LEVEL : Int := OOK_MAX_HIGH_LEVEL / 2
def OOK_EST_HIGH_Ratio : Int := 64
def OOK_EST_LOW_Ratio : Int := 1024

-- FSK adaptive frequency estimator constants.
def FSK_DEFAULT_FM_DELTA : Int := 6000
def FSK_EST_Ratio : Int := 32

/-- Modelled from the spec: `PD_MAX_PULSES` lives in `pulse_detect.h`, which is
not part of the sources; the spec fixes it to 1200. -/
def PD_MAX_PULSES : Nat := 1200

/-- Modelled from the spec: `PD_MIN_PULSES` (FSK commit threshold) lives in
`pulse_detect.h`; the spec says "typically 16". -/
def PD_MIN_PULSES : Nat := 16

/-- Modelled from the spec: `PD_MIN_PULSE_SAMPLES` (glitch threshold) lives in
`pulse_detect.h`; the spec does not fix its value, only that intervals shorter
than it are glitches. The concrete value 10 is used; the theorems below only
depend on it being positive. -/
def PD_MIN_PULSE_SAMPLES : Int := 10

/-- Modelled from the spec: `PD_MIN_GAP_MS` (minimum gap, in ms) from
`pulse_detect.h`; value not fixed by the spec. -/
def PD_MIN_GAP_MS : Int := 10

/-- Modelled from the spec: `PD_MAX_GAP_MS` (maximum gap, in ms) from
`pulse_detect.h`; value not fixed by the spec. -/
def PD_MAX_GAP_MS : Int := 100

/-- Modelled from the spec: `PD_MAX_GAP_RATIO` (gap/pulse ratio bound) from
`pulse_detect.h`; value not fixed by the spec. -/
def PD_MAX_GAP_Ratio : Int := 10

/-- `pulse_data_t`: one detected packet.  `pulse`/`gap` are the 1200-entry
`int` arrays, modelled as total functions. -/
structure PulseData where
  offset : Nat
  num_pulses : Nat
  pulse : Nat → Int
  gap : Nat → Int
  ook_low_estimate : Int
  ook_high_estimate : Int
  fsk_f1_est : Int
  fsk_f2_est : Int

/-- `pulse_data_clear`: zero the packet buffer. -/
def pulse_data_clear : PulseData :=
  { offset := 0, num_pulses := 0, pulse := fun _ => 0, gap := fun _ => 0,
    ook_low_estimate := 0, ook_high_estimate := 0, fsk_f1_est := 0, fsk_f2_est := 0 }

/-- FSK detector states (`PD_FSK_STATE_*`). -/
inductive FSKSt where
  | INIT | F1 | F2 | ERROR
deriving DecidableEq, Repr

/-- `pulse_FSK_state_t`: internal state of `pulse_FSK_detect`. -/
structure FSKState where
  fsk_pulse_length : Int
  fsk_state : FSKSt
  fm_f1_est : Int
  fm_f2_est : Int
deriving Repr

/-- `pulse_FSK_detect`: demodulate FSK sample by sample (lines 143-232).
Returns the updated output buffer and internal state. -/
def pulse_FSK_detect (fm_n : Int) (fsk_pulses : PulseData) (s : FSKState) :
    PulseData × FSKState :=
  let fm_f1_delta : Int := |fm_n - s.fm_f1_est|
  let fm_f2_delta : Int := |fm_n - s.fm_f2_est|
  let s := { s with fsk_pulse_length := s.fsk_pulse_length + 1 }
  match s.fsk_state with
  | .INIT =>
      -- Initial samples?
      if s.fsk_pulse_length < PD_MIN_PULSE_SAMPLES then
        (fsk_pulses, { s with fm_f1_est := cdiv s.fm_f1_est 2 + cdiv fm_n 2 })
      -- Above default frequency delta?
      else if fm_f1_delta > cdiv FSK_DEFAULT_FM_DELTA 2 then
        -- Positive frequency delta - initial frequency was low (gap)
        if fm_n > s.fm_f1_est then
          ({ fsk_pulses with
               pulse := Function.update fsk_pulses.pulse 0 0,
               gap := Function.update fsk_pulses.gap 0 s.fsk_pulse_length,
               num_pulses := fsk_pulses.num_pulses + 1 },
           { s with fsk_state := .F1, fm_f2_est := s.fm_f1_est,
                    fm_f1_est := fm_n, fsk_pulse_length := 0 })
        -- Negative frequency delta - initial frequency was high (pulse)
        else
          ({ fsk_pulses with
               pulse := Function.update fsk_pulses.pulse 0 s.fsk_pulse_length },
           { s with fsk_state := .F2, fm_f2_est := fm_n, fsk_pulse_length := 0 })
      -- Still below threshold
      else
        (fsk_pulses,
         { s with fm_f1_est :=
             s.fm_f1_est + cdiv fm_n FSK_EST_Ratio - cdiv s.fm_f1_est FSK_EST_Ratio })
  | .F1 =>
      -- Closer to F2 than F1?
      if fm_f1_delta > fm_f2_delta then
        -- Store if pulse is not too short (suppress spurious)
        if s.fsk_pulse_length ≥ PD_MIN_PULSE_SAMPLES then
          ({ fsk_pulses with
               pulse := Function.update fsk_pulses.pulse fsk_pulses.num_pulses
                           s.fsk_pulse_length },
           { s with fsk_state := .F2, fsk_pulse_length := 0 })
        -- Else rewind to last gap
        else
          let buf := { fsk_pulses with num_pulses := fsk_pulses.num_pulses - 1 }
          let s' := { s with fsk_state := .F2,
                             fsk_pulse_length :=
                               s.fsk_pulse_length +
                                 fsk_pulses.gap (fsk_pulses.num_pulses - 1) }
          -- Are we back to initial frequency? (Was initial frequency a gap?)
          if buf.num_pulses = 0 ∧ buf.pulse 0 = 0 then
            (buf, { s' with fm_f1_est := s.fm_f2_est, fsk_state := .INIT })
          else (buf, s')
      -- Still below threshold
      else
        (fsk_pulses,
         { s with fm_f1_est :=
             s.fm_f1_est + cdiv fm_n FSK_EST_Ratio - cdiv s.fm_f1_est FSK_EST_Ratio })
  | .F2 =>
      -- Freq closer to F1 than F2?
      if fm_f2_delta > fm_f1_delta then
        -- Store if gap is not too short (suppress spurious)
        if s.fsk_pulse_length ≥ PD_MIN_PULSE_SAMPLES then
          let buf := { fsk_pulses with
                         gap := Function.update fsk_pulses.gap fsk_pulses.num_pulses
                                   s.fsk_pulse_length,
                         num_pulses := fsk_pulses.num_pulses + 1 }
          -- When pulse buffer is full go to error state
          if buf.num_pulses ≥ PD_MAX_PULSES then
            (buf, { s with fsk_state := .ERROR, fsk_pulse_length := 0 })
          else
            (buf, { s with fsk_state := .F1, fsk_pulse_length := 0 })
        -- Else rewind to last pulse
        else
          let s' := { s with fsk_state := .F1,
                             fsk_pulse_length :=
                               s.fsk_pulse_length +
                                 fsk_pulses.pulse fsk_pulses.num_pulses }
          -- Are we back to initial frequency?
          if fsk_pulses.num_pulses = 0 then
            (fsk_pulses, { s' with fsk_state := .INIT })
          else (fsk_pulses, s')
      -- Still below threshold
      else
        (fsk_pulses,
         { s with fm_f2_est :=
             s.fm_f2_est + cdiv fm_n FSK_EST_Ratio - cdiv s.fm_f2_est FSK_EST_Ratio })
  | .ERROR => (fsk_pulses, s)

/-- `pulse_FSK_wrap_up`: store the trailing FSK pulse/gap at end of package
(lines 240-251). -/
def pulse_FSK_wrap_up (fsk_pulses : PulseData) (s : FSKState) :
    PulseData × FSKState :=
  if fsk_pulses.num_pulses < PD_MAX_PULSES then
    let s := { s with fsk_pulse_length := s.fsk_pulse_length + 1 }
    if s.fsk_state = .F1 then
      ({ fsk_pulses with
           pulse := Function.update fsk_pulses.pulse fsk_pulses.num_pulses
                       s.fsk_pulse_length,
           gap := Function.update fsk_pulses.gap fsk_pulses.num_pulses 0,
           num_pulses := fsk_pulses.num_pulses + 1 }, s)
    else
      ({ fsk_pulses with
           gap := Function.update fsk_pulses.gap fsk_pulses.num_pulses
                     s.fsk_pulse_length,
           num_pulses := fsk_pulses.num_pulses + 1 }, s)
  else (fsk_pulses, s)

/-- OOK detector states (`PD_OOK_STATE_*`). -/
inductive OOKSt where
  | IDLE | PULSE | GAP_START | GAP
deriving DecidableEq, Repr

/-- `pulse_state_t`: persistent internal state of `pulse_detect_package`. -/
structure DetectorState where
  ook_state : OOKSt
  pulse_length : Int
  max_pulse : Int
  data_counter : Nat
  lead_in_counter : Int
  ook_low_estimate : Int
  ook_high_estimate : Int
  FSK_state : FSKState

/-- The zero-initialized process-wide `pulse_state` static. -/
def initDetectorState : DetectorState :=
  { ook_state := .IDLE, pulse_length := 0, max_pulse := 0, data_counter := 0,
    lead_in_counter := 0, ook_low_estimate := 0, ook_high_estimate := 0,
    FSK_state := { fsk_pulse_length := 0, fsk_state := .INIT,
                   fm_f1_est := 0, fm_f2_est := 0 } }

/-- The detector state together with the two caller-owned output buffers. -/
structure World where
  s : DetectorState
  pulses : PulseData
  fsk_pulses : PulseData

/-- The OOK decision threshold (lines 287-288): stored into an `int16_t`,
with the manual `level_limit` override. -/
def ookThreshold (s : DetectorState) (level_limit : Int) : Int :=
  let t := toInt16 (s.ook_low_estimate +
             cdiv (s.ook_high_estimate - s.ook_low_estimate) 2)
  if level_limit ≠ 0 then level_limit else t

/-- The hysteresis band `ook_threshold / 8` (line 289), an `int16_t`. -/
def ookHysteresis (s : DetectorState) (level_limit : Int) : Int :=
  toInt16 (cdiv (ookThreshold s level_limit) 8)

/-- One iteration of the `switch (s->ook_state)` statement of
`pulse_detect_package` (lines 285-410) on the sample pair `(am_n, fm_n)`.
`Sum.inl (r, w)` models `return r`; `Sum.inr w` falls through to
`s->data_counter++`. -/
def ookSwitch (level_limit : Int) (samples_per_ms : Int) (sample_offset : Nat)
    (am_n fm_n : Int) (w : World) : Sum (Nat × World) World :=
  let thr := ookThreshold w.s level_limit
  let hys := ookHysteresis w.s level_limit
  match w.s.ook_state with
  | .IDLE =>
      if am_n > thr + hys ∧ w.s.lead_in_counter > OOK_EST_LOW_Ratio then
        -- Initialize all data
        Sum.inr
          { s :=
              { w.s with
                  pulse_length := 0
                  max_pulse := 0
                  FSK_state :=
                    { fsk_pulse_length := 0, fsk_state := .INIT,
                      fm_f1_est := 0, fm_f2_est := 0 }
                  ook_state := .PULSE }
            pulses :=
              { pulse_data_clear with offset := sample_offset + w.s.data_counter }
            fsk_pulses :=
              { pulse_data_clear with offset := sample_offset + w.s.data_counter } }
      else
        -- Estimate low (noise) level, derive default high level estimate
        let ook_low_delta := am_n - w.s.ook_low_estimate
        let low := w.s.ook_low_estimate + cdiv ook_low_delta OOK_EST_LOW_Ratio
        let low := low + (if ook_low_delta > 0 then 1 else -1)
        let high := OOK_HIGH_LOW_Ratio * low
        let high := max high OOK_MIN_HIGH_LEVEL
        let high := min high OOK_MAX_HIGH_LEVEL
        let lead := if w.s.lead_in_counter ≤ OOK_EST_LOW_Ratio
                    then w.s.lead_in_counter + 1 else w.s.lead_in_counter
        Sum.inr
          { w with
              s :=
                { w.s with
                    ook_low_estimate := low
                    ook_high_estimate := high
                    lead_in_counter := lead } }
  | .PULSE =>
      let w := { w with s := { w.s with pulse_length := w.s.pulse_length + 1 } }
      -- End of pulse detected?
      let w : World :=
        if am_n < thr - hys then
          -- Check for spurious short pulses
          if w.s.pulse_length < PD_MIN_PULSE_SAMPLES then
            { w with s := { w.s with ook_state := .IDLE } }
          else
            { w with
                pulses :=
                  { w.pulses with
                      pulse := Function.update w.pulses.pulse
                                 w.pulses.num_pulses w.s.pulse_length }
                s :=
                  { w.s with
                      max_pulse := max w.s.pulse_length w.s.max_pulse
                      pulse_length := 0
                      ook_state := .GAP_START } }
        else
          -- Calculate OOK high level estimate and packet carrier estimate
          let high := w.s.ook_high_estimate + cdiv am_n OOK_EST_HIGH_Ratio -
                        cdiv w.s.ook_high_estimate OOK_EST_HIGH_Ratio
          let high := max high OOK_MIN_HIGH_LEVEL
          let high := min high OOK_MAX_HIGH_LEVEL
          { w with
              s := { w.s with ook_high_estimate := high }
              pulses :=
                { w.pulses with
                    fsk_f1_est := w.pulses.fsk_f1_est +
                      cdiv fm_n OOK_EST_HIGH_Ratio -
                      cdiv w.pulses.fsk_f1_est OOK_EST_HIGH_Ratio } }
      -- FSK demodulation (only during first pulse)
      if w.pulses.num_pulses = 0 then
        let bf := pulse_FSK_detect fm_n w.fsk_pulses w.s.FSK_state
        Sum.inr { w with fsk_pulses := bf.1, s := { w.s with FSK_state := bf.2 } }
      else Sum.inr w
  | .GAP_START =>
      let w := { w with s := { w.s with pulse_length := w.s.pulse_length + 1 } }
      -- Pulse detected again already? (spurious short gap)
      if am_n > thr + hys then
        let w :=
          { w with
              s :=
                { w.s with
                    pulse_length := w.s.pulse_length +
                      w.pulses.pulse w.pulses.num_pulses
                    ook_state := .PULSE } }
        if w.pulses.num_pulses = 0 then
          let bf := pulse_FSK_detect fm_n w.fsk_pulses w.s.FSK_state
          Sum.inr { w with fsk_pulses := bf.1, s := { w.s with FSK_state := bf.2 } }
        else Sum.inr w
      else if w.s.pulse_length ≥ PD_MIN_PULSE_SAMPLES then
        let w := { w with s := { w.s with ook_state := .GAP } }
        -- Determine if FSK modulation is detected
        if w.fsk_pulses.num_pulses > PD_MIN_PULSES then
          let bf := pulse_FSK_wrap_up w.fsk_pulses w.s.FSK_state
          let buf :=
            { bf.1 with
                fsk_f1_est := bf.2.fm_f1_est
                fsk_f2_est := bf.2.fm_f2_est
                ook_low_estimate := w.s.ook_low_estimate
                ook_high_estimate := w.s.ook_high_estimate }
          Sum.inl (2,
            { w with
                fsk_pulses := buf
                s := { w.s with FSK_state := bf.2, ook_state := .IDLE } })
        else
          if w.pulses.num_pulses = 0 then
            let bf := pulse_FSK_detect fm_n w.fsk_pulses w.s.FSK_state
            Sum.inr { w with fsk_pulses := bf.1, s := { w.s with FSK_state := bf.2 } }
          else Sum.inr w
      else
        if w.pulses.num_pulses = 0 then
          let bf := pulse_FSK_detect fm_n w.fsk_pulses w.s.FSK_state
          Sum.inr { w with fsk_pulses := bf.1, s := { w.s with FSK_state := bf.2 } }
        else Sum.inr w
  | .GAP =>
      let w := { w with s := { w.s with pulse_length := w.s.pulse_length + 1 } }
      -- New pulse detected?
      let step1 : Sum (Nat × World) World :=
        if am_n > thr + hys then
          let w :=
            { w with
                pulses :=
                  { w.pulses with
                      gap := Function.update w.pulses.gap
                               w.pulses.num_pulses w.s.pulse_length
                      num_pulses := w.pulses.num_pulses + 1 } }
          -- EOP if too many pulses
          if w.pulses.num_pulses ≥ PD_MAX_PULSES then
            Sum.inl (1,
              { w with
                  s := { w.s with ook_state := .IDLE }
                  pulses :=
                    { w.pulses with
                        ook_low_estimate := w.s.ook_low_estimate
                        ook_high_estimate := w.s.ook_high_estimate } })
          else
            Sum.inr { w with s := { w.s with pulse_length := 0, ook_state := .PULSE } }
        else Sum.inr w
      match step1 with
      | Sum.inl r => Sum.inl r
      | Sum.inr w =>
        -- EOP if gap is too long
        if (w.s.pulse_length > PD_MAX_GAP_Ratio * w.s.max_pulse ∧
              w.s.pulse_length > PD_MIN_GAP_MS * samples_per_ms) ∨
           w.s.pulse_length > PD_MAX_GAP_MS * samples_per_ms then
          Sum.inl (1,
            { w with
                s := { w.s with ook_state := .IDLE }
                pulses :=
                  { w.pulses with
                      gap := Function.update w.pulses.gap
                               w.pulses.num_pulses w.s.pulse_length
                      num_pulses := w.pulses.num_pulses + 1
                      ook_low_estimate := w.s.ook_low_estimate
                      ook_high_estimate := w.s.ook_high_estimate } })
        else Sum.inr w

/-- The body of the `while` loop of `pulse_detect_package`: the state switch
followed (on fall-through) by `s->data_counter++` (line 411). -/
def detectBody (level_limit : Int) (samples_per_ms : Int) (sample_offset : Nat)
    (am_n fm_n : Int) (w : World) : Sum (Nat × World) World :=
  match ookSwitch level_limit samples_per_ms sample_offset am_n fm_n w with
  | Sum.inl r => Sum.inl r
  | Sum.inr w' => Sum.inr { w' with s := { w'.s with data_counter := w'.s.data_counter + 1 } }

/-- The `while (s->data_counter < len)` loop of `pulse_detect_package`,
iterating over the samples at indices `data_counter, data_counter+1, …`.
Returns `(return_value, final world, number of loop iterations)`; the
iteration count is instrumentation used only by the specification.  On
buffer exhaustion the cursor is reset to 0 (line 414). -/
def detectLoop (level_limit : Int) (samples_per_ms : Int) (sample_offset : Nat) :
    List (Int × Int) → World → Nat → Nat × World × Nat
  | [], w, k => (0, { w with s := { w.s with data_counter := 0 } }, k)
  | (a, f) :: rest, w, k =>
      match detectBody level_limit samples_per_ms sample_offset a f w with
      | Sum.inl (r, w') => (r, w', k + 1)
      | Sum.inr w' => detectLoop level_limit samples_per_ms sample_offset rest w' (k + 1)

/-- `pulse_detect_package` (lines 278-416): clamp the high estimate, then run
the sample loop from the current cursor.  The chunk is the pair of parallel
sample lists `env`/`fm`; the loop reads the sample at index `data_counter`,
modelled by iterating over the suffix of the zipped chunk starting there. -/
def pulse_detect_package (env fm : List Int) (level_limit : Int)
    (samp_rate : Nat) (sample_offset : Nat) (w : World) : Nat × World × Nat :=
  let samples_per_ms : Int := (samp_rate / 1000 : Nat)
  let w := { w with s := { w.s with
               ook_high_estimate := max w.s.ook_high_estimate OOK_MIN_HIGH_LEVEL } }
  detectLoop level_limit samples_per_ms sample_offset
    ((env.zip fm).drop w.s.data_counter) w 0

/-- The caller's initial configuration: the zero-initialized static detector
state and cleared output buffers. -/
def initWorld : World :=
  { s := initDetectorState, pulses := pulse_data_clear, fsk_pulses := pulse_data_clear }

/-- Invariant of the FSK sub-detector state and its output buffer: the INIT
state has an empty buffer; F1 (and F2) keep `num_pulses` strictly below the
buffer capacity, F1 keeps it at least 1; every committed gap, every committed
pulse beyond slot 0, and the pending pulse stored at slot `num_pulses` while
in F2, are at least `PD_MIN_PULSE_SAMPLES`; slot 0 holds either the zero
sentinel or a full-size pulse. -/
def FSKInv (buf : PulseData) (s : FSKState) : Prop :=
  (s.fsk_state = .INIT → buf.num_pulses = 0) ∧
  (s.fsk_state = .F1 → 1 ≤ buf.num_pulses ∧ buf.num_pulses < PD_MAX_PULSES) ∧
  (s.fsk_state = .F2 → buf.num_pulses < PD_MAX_PULSES ∧
      buf.pulse buf.num_pulses ≥ PD_MIN_PULSE_SAMPLES) ∧
  (∀ k, k < buf.num_pulses → buf.gap k ≥ PD_MIN_PULSE_SAMPLES) ∧
  (∀ k, 1 ≤ k → k < buf.num_pulses → buf.pulse k ≥ PD_MIN_PULSE_SAMPLES) ∧
  (1 ≤ buf.num_pulses → buf.pulse 0 = 0 ∨ buf.pulse 0 ≥ PD_MIN_PULSE_SAMPLES)

/-- Minimum-width property of an emitted OOK packet: every recorded pulse and
every recorded gap (the final one included) is at least
`PD_MIN_PULSE_SAMPLES`. -/
def OOKPacketOk (P : PulseData) : Prop :=
  ∀ k, k < P.num_pulses →
    P.pulse k ≥ PD_MIN_PULSE_SAMPLES ∧ P.gap k ≥ PD_MIN_PULSE_SAMPLES

/-- Minimum-width property of an emitted FSK packet: every recorded pulse and
gap is at least `PD_MIN_PULSE_SAMPLES`, except the slot-0 zero-pulse sentinel
and the final slot written by `pulse_FSK_wrap_up` (whose pulse is the running
timer and whose gap may be the timer or the constant 0). -/
def FSKPacketOk (F : PulseData) : Prop :=
  ∀ k, k < F.num_pulses →
    (F.pulse k ≥ PD_MIN_PULSE_SAMPLES ∨ (k = 0 ∧ F.pulse 0 = 0) ∨
       k + 1 = F.num_pulses) ∧
    (F.gap k ≥ PD_MIN_PULSE_SAMPLES ∨ k + 1 = F.num_pulses)

/-- Invariant of the OOK detector state and the two output buffers, holding
at every sample boundary.  Outside IDLE: all committed pulse/gap pairs of the
OOK buffer are full-size, the buffer is not full, the FSK sub-state satisfies
`FSKInv`, the pending pulse width stored at slot `num_pulses` is full-size
once a gap has started, and the running gap counter is full-size in GAP. -/
def DetInv (w : World) : Prop :=
  w.s.ook_state ≠ .IDLE →
    (OOKPacketOk w.pulses ∧
     w.pulses.num_pulses < PD_MAX_PULSES ∧
     FSKInv w.fsk_pulses w.s.FSK_state ∧
     ((w.s.ook_state = .GAP_START ∨ w.s.ook_state = .GAP) →
        w.pulses.pulse w.pulses.num_pulses ≥ PD_MIN_PULSE_SAMPLES) ∧
     (w.s.ook_state = .GAP → w.s.pulse_length ≥ PD_MIN_PULSE_SAMPLES))

instance (buf : PulseData) (s : FSKState) : Decidable (FSKInv buf s) := by
  unfold FSKInv; exact inferInstance

instance (P : PulseData) : Decidable (OOKPacketOk P) := by
  unfold OOKPacketOk; exact inferInstance

instance (F : PulseData) : Decidable (FSKPacketOk F) := by
  unfold FSKPacketOk; exact inferInstance

instance (w : World) : Decidable (DetInv w) := by
  unfold DetInv; exact inferInstance

/-- A detector state in the middle of a long packet: OOK GAP state with 1199
committed pulses, waiting for the rising edge that overflows the pulse
count. -/
def gapFullState : DetectorState :=
  { ook_state := .GAP, pulse_length := 50, max_pulse := 50, data_counter := 0,
    lead_in_counter := 1025, ook_low_estimate := 0, ook_high_estimate := 1000,
    FSK_state := { fsk_pulse_length := 400, fsk_state := .INIT,
                   fm_f1_est := 0, fm_f2_est := 0 } }

/-- OOK buffer holding 1199 committed pulse/gap pairs of width 12 samples. -/
def gapFullPulses : PulseData :=
  { offset := 0, num_pulses := 1199, pulse := fun _ => 12, gap := fun _ => 12,
    ook_low_estimate := 0, ook_high_estimate := 0, fsk_f1_est := 0, fsk_f2_est := 0 }

/-- The full mid-packet configuration for the pulse-count-overflow scenario. -/
def gapFullWorld : World :=
  { s := gapFullState, pulses := gapFullPulses, fsk_pulses := pulse_data_clear }

/-- A detector state inside the first OOK pulse with 17 committed FSK symbols
(sentinel in slot 0) and the FSK sub-detector in F1. -/
def fskBusyState : DetectorState :=
  { ook_state := .PULSE, pulse_length := 50, max_pulse := 0, data_counter := 0,
    lead_in_counter := 1025, ook_low_estimate := 0, ook_high_estimate := 1000,
    FSK_state := { fsk_pulse_length := 3, fsk_state := .F1,
                   fm_f1_est := 5000, fm_f2_est := 0 } }

/-- FSK buffer with 17 committed symbols: zero sentinel pulse in slot 0,
all other recorded widths 12 samples. -/
def fskBusyBuf : PulseData :=
  { offset := 0, num_pulses := 17,
    pulse := fun k => if k = 0 then 0 else 12, gap := fun _ => 12,
    ook_low_estimate := 0, ook_high_estimate := 0, fsk_f1_est := 0, fsk_f2_est := 0 }

/-- The full configuration for the FSK wrap-up scenario. -/
def fskBusyWorld : World :=
  { s := fskBusyState, pulses := pulse_data_clear, fsk_pulses := fskBusyBuf }

/-- The crafted pulse-count-overflow configuration satisfies the detector
invariant (it is an ordinary reachable mid-packet shape). -/
theorem gapFullWorld_inv : DetInv gapFullWorld := by
  intro _
  refine ⟨fun k _ => ⟨?_, ?_⟩, ?_, ?_, fun _ => ?_, fun _ => ?_⟩ <;>
    first
      | decide
      | norm_num [gapFullWorld, gapFullPulses, gapFullState,
          PD_MIN_PULSE_SAMPLES, PD_MAX_PULSES]

/-- The crafted FSK wrap-up configuration satisfies the detector invariant. -/
theorem fskBusyWorld_inv : DetInv fskBusyWorld := by
  intro _
  refine ⟨fun k hk => ?_, ?_, ⟨?_, ?_, ?_, fun k hk => ?_, fun k h1 hk => ?_, ?_⟩,
      ?_, ?_⟩ <;>
    simp_all [fskBusyWorld, fskBusyBuf, fskBusyState, pulse_data_clear,
      PD_MIN_PULSE_SAMPLES, PD_MAX_PULSES, OOKPacketOk] <;> omega

/-- `pulse_FSK_detect` preserves the FSK sub-detector invariant. -/
theorem pulse_FSK_detect_inv (fm_n : Int) (buf : PulseData) (s : FSKState)
    (h : FSKInv buf s) :
    FSKInv (pulse_FSK_detect fm_n buf s).1 (pulse_FSK_detect fm_n buf s).2 := by
  obtain ⟨len, st, f1, f2⟩ := s
  obtain ⟨hINIT, hF1, hF2, hgap, hpul, hp0⟩ := h
  dsimp only at hINIT hF1 hF2 hgap hpul hp0
  cases st with
  | INIT =>
      have h0 : buf.num_pulses = 0 := hINIT rfl
      unfold pulse_FSK_detect
      dsimp only
      split_ifs with h1 h2 h3 <;> (unfold FSKInv; dsimp only)
      · exact ⟨fun _ => h0, by simp, by simp, hgap, hpul, hp0⟩
      · refine ⟨by simp, ?_, by simp, ?_, ?_, ?_⟩
        · intro _
          simp [h0, PD_MAX_PULSES]
        · intro k hk
          have hk0 : k = 0 := by omega
          subst hk0
          rw [Function.update_same]
          omega
        · intro k h1k hk
          omega
        · intro _
          left
          rw [Function.update_same]
      · refine ⟨by simp, by simp, ?_, hgap, fun k h1k hk => absurd hk (by omega), ?_⟩
        · intro _
          refine ⟨by simp [h0, PD_MAX_PULSES], ?_⟩
          rw [h0, Function.update_same]
          omega
        · intro hge
          omega
      · exact ⟨fun _ => h0, by simp, by simp, hgap, hpul, hp0⟩
  | F1 =>
      obtain ⟨hge1, hlt⟩ := hF1 rfl
      unfold pulse_FSK_detect
      dsimp only
      split_ifs with h1 h2 h3 <;> (unfold FSKInv; dsimp only)
      · -- commit a pulse, go to F2
        refine ⟨by simp, by simp, ?_, hgap, ?_, ?_⟩
        · intro _
          refine ⟨hlt, ?_⟩
          rw [Function.update_same]
          omega
        · intro k h1k hk
          rw [Function.update_apply]
          split_ifs with he
          · omega
          · exact hpul k h1k hk
        · intro hge
          rw [Function.update_apply]
          split_ifs with he
          · omega
          · exact hp0 hge
      · -- rewind to num-1, back to INIT (sentinel case)
        exact ⟨fun _ => h3.1, by simp, by simp,
          fun k hk => hgap k (by omega),
          fun k h1k hk => hpul k h1k (by omega),
          fun hge => hp0 (by omega)⟩
      · -- rewind to num-1, stay F2
        refine ⟨by simp, by simp, ?_,
          fun k hk => hgap k (by omega),
          fun k h1k hk => hpul k h1k (by omega),
          fun hge => hp0 (by omega)⟩
        intro _
        refine ⟨by omega, ?_⟩
        rcases Nat.lt_or_ge 1 buf.num_pulses with hlt1 | hle1
        · exact hpul (buf.num_pulses - 1) (by omega) (by omega)
        · have h01 : buf.num_pulses - 1 = 0 := by omega
          rw [h01]
          rcases hp0 hge1 with hz | hge
          · exact absurd ⟨h01, hz⟩ h3
          · exact hge
      · exact ⟨by simp, fun _ => ⟨hge1, hlt⟩, by simp, hgap, hpul, hp0⟩
  | F2 =>
      obtain ⟨hlt, hpend⟩ := hF2 rfl
      unfold pulse_FSK_detect
      dsimp only
      split_ifs with h1 h2 h3 h4 <;> (unfold FSKInv; dsimp only)
      · -- commit a gap, buffer full: ERROR
        refine ⟨by simp, by simp, by simp, ?_, ?_, ?_⟩
        · intro k hk
          rw [Function.update_apply]
          split_ifs with he
          · omega
          · exact hgap k (by omega)
        · intro k h1k hk
          rcases Nat.lt_succ_iff_lt_or_eq.mp hk with hk' | hk'
          · exact hpul k h1k hk'
          · subst hk'; exact hpend
        · intro _
          rcases Nat.eq_zero_or_pos buf.num_pulses with hz | hpos
          · right; rw [hz] at hpend; exact hpend
          · exact hp0 hpos
      · -- commit a gap, go to F1
        refine ⟨by simp, ?_, by simp, ?_, ?_, ?_⟩
        · intro _
          exact ⟨by omega, by omega⟩
        · intro k hk
          rw [Function.update_apply]
          split_ifs with he
          · omega
          · exact hgap k (by omega)
        · intro k h1k hk
          rcases Nat.lt_succ_iff_lt_or_eq.mp hk with hk' | hk'
          · exact hpul k h1k hk'
          · subst hk'; exact hpend
        · intro _
          rcases Nat.eq_zero_or_pos buf.num_pulses with hz | hpos
          · right; rw [hz] at hpend; exact hpend
          · exact hp0 hpos
      · -- rewind with empty buffer: back to INIT
        exact ⟨fun _ => h4, by simp, by simp, hgap, hpul, hp0⟩
      · -- rewind, stay F1
        exact ⟨by simp, fun _ => ⟨by omega, hlt⟩, by simp, hgap, hpul, hp0⟩
      · exact ⟨by simp, by simp, fun _ => ⟨hlt, hpend⟩, hgap, hpul, hp0⟩
  | ERROR =>
      unfold pulse_FSK_detect FSKInv
      dsimp only
      exact ⟨by simp, by simp, by simp, hgap, hpul, hp0⟩

/-- Iterating `pulse_FSK_detect` over a sample sequence, starting from a
cleared output buffer and zeroed internal state (the C9 scenario). -/
def runFSK (fms : List Int) : PulseData × FSKState :=
  fms.foldl (fun p fm_n => pulse_FSK_detect fm_n p.1 p.2)
    (pulse_data_clear,
     { fsk_pulse_length := 0, fsk_state := .INIT, fm_f1_est := 0, fm_f2_est := 0 })

/-- The FSK invariant holds along any `pulse_FSK_detect` iteration. -/
theorem runFSK_foldl_inv (fms : List Int) (p : PulseData × FSKState)
    (h : FSKInv p.1 p.2) :
    FSKInv (fms.foldl (fun p fm_n => pulse_FSK_detect fm_n p.1 p.2) p).1
      (fms.foldl (fun p fm_n => pulse_FSK_detect fm_n p.1 p.2) p).2 := by
  induction fms generalizing p with
  | nil => exact h
  | cons fm rest ih =>
      exact ih _ (pulse_FSK_detect_inv fm p.1 p.2 h)

/-- The invariant instantiated at the cleared starting configuration. -/
theorem runFSK_inv (fms : List Int) : FSKInv (runFSK fms).1 (runFSK fms).2 := by
  refine runFSK_foldl_inv fms _ ?_
  unfold FSKInv pulse_data_clear
  refine ⟨fun _ => rfl, by simp, by simp, ?_, ?_, ?_⟩ <;> intro k <;> simp

/-- C9: starting from a cleared output buffer and zeroed state, after any
sample sequence fed to `pulse_FSK_detect`: in state F1 the buffer holds at
least one pulse, and in states F1/F2 it holds fewer than `PD_MAX_PULSES`;
hence the rewind read of `gap[num_pulses-1]` in F1 and every store to
`pulse[num_pulses]`/`gap[num_pulses]` in F1/F2 target an index below
`PD_MAX_PULSES`, i.e. within the 1200-entry arrays. -/
theorem C9_fsk_num_pulses_invariant (fms : List Int) :
    ((runFSK fms).2.fsk_state = .F1 → 1 ≤ (runFSK fms).1.num_pulses) ∧
    ((runFSK fms).2.fsk_state = .F1 ∨ (runFSK fms).2.fsk_state = .F2 →
       (runFSK fms).1.num_pulses < PD_MAX_PULSES) ∧
    ((runFSK fms).2.fsk_state = .F1 →
       (runFSK fms).1.num_pulses - 1 < PD_MAX_PULSES) := by
  obtain ⟨hINIT, hF1, hF2, -, -, -⟩ := runFSK_inv fms
  refine ⟨fun h => (hF1 h).1, ?_, fun h => ?_⟩
  · rintro (h | h)
    · exact (hF1 h).2
    · exact (hF2 h).1
  · have := (hF1 h).2
    omega

/-- A concrete sample sequence driving the zeroed FSK detector into F1. -/
def c9Stream : List Int := List.replicate 9 0 ++ [5000]

/-- Witness for C9 at a concrete input reaching state F1. -/
theorem C9_witness :
    (runFSK c9Stream).2.fsk_state = .F1 ∧
    1 ≤ (runFSK c9Stream).1.num_pulses ∧
    (runFSK c9Stream).1.num_pulses < PD_MAX_PULSES := by
  have h := C9_fsk_num_pulses_invariant c9Stream
  exact ⟨by decide, h.1 (by decide), h.2.1 (Or.inl (by decide))⟩

/-- C6: in the FSK INIT state with the (incremented) timer past
`PD_MIN_PULSE_SAMPLES` and an empty buffer (which INIT guarantees, see
`FSKInv`), a sample exceeding `fm_f1_est` by more than
`FSK_DEFAULT_FM_DELTA/2` swaps the estimates (`fm_f2_est` takes the old
`fm_f1_est`, `fm_f1_est` takes the sample), records the sentinel
`pulse[0] = 0` with `gap[0]` = timer, sets `num_pulses` to 1, resets the
timer and enters F1. -/
theorem C6_fsk_init_low_side_swap (fm_n : Int) (buf : PulseData) (s : FSKState)
    (hst : s.fsk_state = .INIT)
    (htimer : s.fsk_pulse_length + 1 ≥ PD_MIN_PULSE_SAMPLES)
    (hpos : fm_n > s.fm_f1_est + cdiv FSK_DEFAULT_FM_DELTA 2)
    (hnum : buf.num_pulses = 0) :
    (pulse_FSK_detect fm_n buf s).2.fsk_state = .F1 ∧
    (pulse_FSK_detect fm_n buf s).2.fm_f2_est = s.fm_f1_est ∧
    (pulse_FSK_detect fm_n buf s).2.fm_f1_est = fm_n ∧
    (pulse_FSK_detect fm_n buf s).2.fsk_pulse_length = 0 ∧
    (pulse_FSK_detect fm_n buf s).1.pulse 0 = 0 ∧
    (pulse_FSK_detect fm_n buf s).1.gap 0 = s.fsk_pulse_length + 1 ∧
    (pulse_FSK_detect fm_n buf s).1.num_pulses = 1 := by
  obtain ⟨len, st, f1, f2⟩ := s
  dsimp only at hst htimer hpos ⊢
  subst hst
  have hdelta : cdiv FSK_DEFAULT_FM_DELTA 2 = 3000 := by decide
  have habs : |fm_n - f1| > cdiv FSK_DEFAULT_FM_DELTA 2 := by
    rw [hdelta] at hpos ⊢
    rw [abs_of_pos (by omega)]
    omega
  have hgt : fm_n > f1 := by rw [hdelta] at hpos; omega
  unfold pulse_FSK_detect
  dsimp only
  rw [if_neg (by omega), if_pos habs, if_pos hgt]
  dsimp only
  exact ⟨rfl, rfl, rfl, rfl, Function.update_same .., Function.update_same .., by omega⟩

/-- Witness for C6 at a concrete INIT-state input. -/
theorem C6_witness :
    (pulse_FSK_detect 5000 pulse_data_clear
        { fsk_pulse_length := 9, fsk_state := .INIT, fm_f1_est := 0, fm_f2_est := 0 }
      ).2.fsk_state = .F1 ∧
    (pulse_FSK_detect 5000 pulse_data_clear
        { fsk_pulse_length := 9, fsk_state := .INIT, fm_f1_est := 0, fm_f2_est := 0 }
      ).1.gap 0 = 10 ∧
    (pulse_FSK_detect 5000 pulse_data_clear
        { fsk_pulse_length := 9, fsk_state := .INIT, fm_f1_est := 0, fm_f2_est := 0 }
      ).1.num_pulses = 1 := by
  have h := C6_fsk_init_low_side_swap 5000 pulse_data_clear
    { fsk_pulse_length := 9, fsk_state := .INIT, fm_f1_est := 0, fm_f2_est := 0 }
    rfl (by decide) (by decide) rfl
  exact ⟨h.1, h.2.2.2.2.2.1, h.2.2.2.2.2.2⟩

/-- C5: in the OOK GAP state, when a rising edge stores the gap width and the
incremented `num_pulses` reaches `PD_MAX_PULSES`, the detector treats it as a
normal end of packet: level estimates are copied into the OOK buffer, the
state returns to IDLE, and the call returns OOK_PACKET (code 1) with
`num_pulses = PD_MAX_PULSES`. -/
theorem C5_ook_pulse_count_overflow (level_limit samples_per_ms : Int)
    (sample_offset : Nat) (am_n fm_n : Int) (w : World)
    (hst : w.s.ook_state = .GAP)
    (hrise : am_n > ookThreshold w.s level_limit + ookHysteresis w.s level_limit)
    (hful : w.pulses.num_pulses + 1 = PD_MAX_PULSES) :
    ∃ w', ookSwitch level_limit samples_per_ms sample_offset am_n fm_n w =
            .inl (1, w') ∧
      w'.s.ook_state = .IDLE ∧
      w'.pulses.num_pulses = PD_MAX_PULSES ∧
      w'.pulses.ook_low_estimate = w.s.ook_low_estimate ∧
      w'.pulses.ook_high_estimate = w.s.ook_high_estimate ∧
      w'.pulses.gap w.pulses.num_pulses = w.s.pulse_length + 1 := by
  unfold ookSwitch
  rw [hst]
  dsimp only
  rw [if_pos hrise, if_pos (by omega : w.pulses.num_pulses + 1 ≥ PD_MAX_PULSES)]
  refine ⟨_, rfl, rfl, by dsimp only; omega, rfl, rfl, ?_⟩
  dsimp only
  exact Function.update_same ..

/-- Witness for C5: a concrete GAP-state configuration with 1199 recorded
pulses and a rising sample. -/
theorem C5_witness :
    ∃ w', ookSwitch 0 1 0 4000 0 gapFullWorld = .inl (1, w') ∧
      w'.s.ook_state = .IDLE ∧
      w'.pulses.num_pulses = PD_MAX_PULSES ∧
      w'.pulses.ook_low_estimate = gapFullWorld.s.ook_low_estimate ∧
      w'.pulses.ook_high_estimate = gapFullWorld.s.ook_high_estimate ∧
      w'.pulses.gap gapFullWorld.pulses.num_pulses = gapFullWorld.s.pulse_length + 1 :=
  C5_ook_pulse_count_overflow 0 1 0 4000 0 gapFullWorld (by decide) (by decide)
    (by decide)

/-- The per-sample switch never touches the cursor `data_counter`: on a
`return` (left) the cursor still points at the sample just examined. -/
theorem ookSwitch_data_counter (level_limit samples_per_ms : Int)
    (sample_offset : Nat) (am_n fm_n : Int) (w : World) :
    match ookSwitch level_limit samples_per_ms sample_offset am_n fm_n w with
    | Sum.inl (_, w') => w'.s.data_counter = w.s.data_counter
    | Sum.inr w' => w'.s.data_counter = w.s.data_counter := by
  unfold ookSwitch
  cases hst : w.s.ook_state <;> dsimp only <;> split_ifs <;> dsimp only <;>
    first
      | rfl
      | (split_ifs <;> dsimp only <;> rfl)

/-- The loop body advances the cursor by one on fall-through and leaves it
unchanged on `return`. -/
theorem detectBody_data_counter (level_limit samples_per_ms : Int)
    (sample_offset : Nat) (am_n fm_n : Int) (w : World) :
    match detectBody level_limit samples_per_ms sample_offset am_n fm_n w with
    | Sum.inl (_, w') => w'.s.data_counter = w.s.data_counter
    | Sum.inr w' => w'.s.data_counter = w.s.data_counter + 1 := by
  have h := ookSwitch_data_counter level_limit samples_per_ms sample_offset am_n fm_n w
  unfold detectBody
  cases hsw : ookSwitch level_limit samples_per_ms sample_offset am_n fm_n w with
  | inl p =>
      rw [hsw] at h
      obtain ⟨r0, w0⟩ := p
      exact h
  | inr w0 =>
      rw [hsw] at h
      dsimp only at h ⊢
      omega

/-- Along the sample loop, a packet-terminating call ends with the cursor on
the deciding sample: final cursor + 1 + initial iteration count =
initial cursor + final iteration count. -/
theorem detectLoop_data_counter (level_limit samples_per_ms : Int)
    (sample_offset : Nat) (lst : List (Int × Int)) :
    ∀ (w : World) (k : Nat),
      (detectLoop level_limit samples_per_ms sample_offset lst w k).1 ≠ 0 →
      (detectLoop level_limit samples_per_ms sample_offset lst w k).2.1.s.data_counter
          + 1 + k =
        w.s.data_counter +
          (detectLoop level_limit samples_per_ms sample_offset lst w k).2.2 := by
  induction lst with
  | nil =>
      intro w k h
      unfold detectLoop at h
      simp at h
  | cons p rest ih =>
      obtain ⟨a, f⟩ := p
      intro w k h
      have hbd := detectBody_data_counter level_limit samples_per_ms sample_offset a f w
      unfold detectLoop at h ⊢
      cases hb : detectBody level_limit samples_per_ms sample_offset a f w with
      | inl q =>
          obtain ⟨r0, w0⟩ := q
          rw [hb] at h hbd
          dsimp only at h hbd ⊢
          omega
      | inr w0 =>
          rw [hb] at h hbd
          dsimp only at h hbd ⊢
          have := ih w0 (k + 1) h
          omega

/-- C1 (amended): when `pulse_detect_package` terminates a packet (returns 1
or 2), the cursor is left pointing AT the sample on which termination was
decided (`initial cursor + iterations - 1`), not at the following sample;
the next call re-examines that same sample. -/
theorem C1_cursor_on_deciding_sample (env fm : List Int) (level_limit : Int)
    (samp_rate sample_offset : Nat) (w : World)
    (h : (pulse_detect_package env fm level_limit samp_rate sample_offset w).1 ≠ 0) :
    (pulse_detect_package env fm level_limit samp_rate sample_offset w
      ).2.1.s.data_counter + 1 =
      w.s.data_counter +
        (pulse_detect_package env fm level_limit samp_rate sample_offset w).2.2 := by
  unfold pulse_detect_package at h ⊢
  have := detectLoop_data_counter level_limit ((samp_rate / 1000 : Nat) : Int)
    sample_offset ((env.zip fm).drop w.s.data_counter)
    { w with s := { w.s with
        ook_high_estimate := max w.s.ook_high_estimate OOK_MIN_HIGH_LEVEL } } 0 h
  dsimp only at this ⊢
  omega

set_option maxRecDepth 4000 in
/-- C1 counterexample: a terminating call (OOK packet via pulse-count
overflow, from an invariant-satisfying mid-packet state) after which the
cursor points at the deciding sample (index 0), not one past it: the claim
`cursor = initial cursor + samples examined` fails. -/
theorem C1_counterexample :
    (pulse_detect_package [4000] [0] 0 1000 0 gapFullWorld).1 = 1 ∧
    DetInv gapFullWorld ∧
    (pulse_detect_package [4000] [0] 0 1000 0 gapFullWorld).2.2 = 1 ∧
    (pulse_detect_package [4000] [0] 0 1000 0 gapFullWorld).2.1.s.data_counter ≠
      gapFullWorld.s.data_counter +
        (pulse_detect_package [4000] [0] 0 1000 0 gapFullWorld).2.2 :=
  ⟨by decide, gapFullWorld_inv, by decide, by decide⟩

set_option maxRecDepth 4000 in
/-- Witness for the amended C1 at a concrete FSK-terminating call. -/
theorem C1_witness :
    (pulse_detect_package (List.replicate 11 0) (List.replicate 11 5000) 0 1000 0
        fskBusyWorld).1 ≠ 0 ∧
    (pulse_detect_package (List.replicate 11 0) (List.replicate 11 5000) 0 1000 0
        fskBusyWorld).2.1.s.data_counter + 1 =
      fskBusyWorld.s.data_counter +
        (pulse_detect_package (List.replicate 11 0) (List.replicate 11 5000) 0 1000 0
          fskBusyWorld).2.2 :=
  ⟨by decide,
   C1_cursor_on_deciding_sample (List.replicate 11 0) (List.replicate 11 5000) 0 1000 0
     fskBusyWorld (by decide)⟩

/-- Bounds on the OOK high-level estimate. -/
def HighOk (s : DetectorState) : Prop :=
  OOK_MIN_HIGH_LEVEL ≤ s.ook_high_estimate ∧ s.ook_high_estimate ≤ OOK_MAX_HIGH_LEVEL

/-- Every branch of the per-sample switch keeps the high estimate clamped to
`[OOK_MIN_HIGH_LEVEL, OOK_MAX_HIGH_LEVEL]`. -/
theorem ookSwitch_high (level_limit samples_per_ms : Int) (sample_offset : Nat)
    (am_n fm_n : Int) (w : World) (h : HighOk w.s) :
    match ookSwitch level_limit samples_per_ms sample_offset am_n fm_n w with
    | Sum.inl (_, w') => HighOk w'.s
    | Sum.inr w' => HighOk w'.s := by
  obtain ⟨hlo, hhi⟩ := h
  unfold ookSwitch
  cases hst : w.s.ook_state <;> dsimp only <;> split_ifs <;> dsimp only <;>
    first
      | exact ⟨hlo, hhi⟩
      | (unfold HighOk; dsimp only;
         simp only [OOK_MIN_HIGH_LEVEL, OOK_MAX_HIGH_LEVEL]; omega)
      | (split_ifs <;> dsimp only <;> exact ⟨hlo, hhi⟩)

/-- The loop body keeps the high estimate clamped. -/
theorem detectBody_high (level_limit samples_per_ms : Int) (sample_offset : Nat)
    (am_n fm_n : Int) (w : World) (h : HighOk w.s) :
    match detectBody level_limit samples_per_ms sample_offset am_n fm_n w with
    | Sum.inl (_, w') => HighOk w'.s
    | Sum.inr w' => HighOk w'.s := by
  have hsw := ookSwitch_high level_limit samples_per_ms sample_offset am_n fm_n w h
  unfold detectBody
  cases hb : ookSwitch level_limit samples_per_ms sample_offset am_n fm_n w with
  | inl q =>
      rw [hb] at hsw
      obtain ⟨r0, w0⟩ := q
      exact hsw
  | inr w0 =>
      rw [hb] at hsw
      exact hsw

/-- The sample loop keeps the high estimate clamped. -/
theorem detectLoop_high (level_limit samples_per_ms : Int) (sample_offset : Nat)
    (lst : List (Int × Int)) :
    ∀ (w : World) (k : Nat), HighOk w.s →
      HighOk (detectLoop level_limit samples_per_ms sample_offset lst w k).2.1.s := by
  induction lst with
  | nil =>
      intro w k h
      exact h
  | cons p rest ih =>
      obtain ⟨a, f⟩ := p
      intro w k h
      have hbd := detectBody_high level_limit samples_per_ms sample_offset a f w h
      unfold detectLoop
      cases hb : detectBody level_limit samples_per_ms sample_offset a f w with
      | inl q =>
          obtain ⟨r0, w0⟩ := q
          rw [hb] at hbd
          exact hbd
      | inr w0 =>
          rw [hb] at hbd
          exact ih w0 (k + 1) hbd

/-- C4 (amended): if the detector enters a call with
`ook_high_estimate ≤ OOK_MAX_HIGH_LEVEL` (as every reachable state does),
then after the call's entry clamp and at every subsequent sample boundary
`OOK_MIN_HIGH_LEVEL ≤ ook_high_estimate ≤ OOK_MAX_HIGH_LEVEL`; the low
estimate, in contrast, is never clamped by the code (see the
counterexample), so no such bound is claimed for it. -/
theorem C4_high_level_bounds (env fm : List Int) (level_limit : Int)
    (samp_rate sample_offset : Nat) (w : World)
    (h : w.s.ook_high_estimate ≤ OOK_MAX_HIGH_LEVEL) :
    OOK_MIN_HIGH_LEVEL ≤
      (pulse_detect_package env fm level_limit samp_rate sample_offset w
        ).2.1.s.ook_high_estimate ∧
    (pulse_detect_package env fm level_limit samp_rate sample_offset w
        ).2.1.s.ook_high_estimate ≤ OOK_MAX_HIGH_LEVEL := by
  unfold pulse_detect_package
  refine detectLoop_high _ _ _ _ _ 0 ?_
  constructor
  · exact le_max_right _ _
  · dsimp only
    have : OOK_MIN_HIGH_LEVEL ≤ OOK_MAX_HIGH_LEVEL := by decide
    omega

set_option maxRecDepth 10000 in
/-- C4 counterexample: the low (noise) estimate is not clamped by
`OOK_MAX_LOW_LEVEL` (the constant is defined but never used): feeding 400
loud samples to the zero-initialized detector during its lead-in leaves it
IDLE with `ook_low_estimate > OOK_MAX_LOW_LEVEL`, refuting the claimed
`low_est ≤ OOK_MAX_LOW_LEVEL` bound. -/
theorem C4_counterexample :
    (pulse_detect_package (List.replicate 400 32767) (List.replicate 400 0) 0 250000 0
        initWorld).2.1.s.ook_low_estimate > OOK_MAX_LOW_LEVEL ∧
    (pulse_detect_package (List.replicate 400 32767) (List.replicate 400 0) 0 250000 0
        initWorld).1 = 0 := by
  constructor <;> decide

/-- Witness for the amended C4 at a concrete call. -/
theorem C4_witness :
    initWorld.s.ook_high_estimate ≤ OOK_MAX_HIGH_LEVEL ∧
    OOK_MIN_HIGH_LEVEL ≤
      (pulse_detect_package [100, 200] [0, 0] 0 250000 0 initWorld
        ).2.1.s.ook_high_estimate ∧
    (pulse_detect_package [100, 200] [0, 0] 0 250000 0 initWorld
        ).2.1.s.ook_high_estimate ≤ OOK_MAX_HIGH_LEVEL :=
  ⟨by decide,
   (C4_high_level_bounds [100, 200] [0, 0] 0 250000 0 initWorld (by decide)).1,
   (C4_high_level_bounds [100, 200] [0, 0] 0 250000 0 initWorld (by decide)).2⟩

/-- Under the FSK invariant, the buffer produced by `pulse_FSK_wrap_up`
satisfies the per-packet minimum-width property (all widths full-size except
the slot-0 sentinel and the final wrap-up slot). -/
theorem pulse_FSK_wrap_up_packet_ok (buf : PulseData) (s : FSKState)
    (h : FSKInv buf s) (hmin : buf.num_pulses > PD_MIN_PULSES) :
    FSKPacketOk (pulse_FSK_wrap_up buf s).1 := by
  obtain ⟨hINIT, hF1, hF2, hgap, hpul, hp0⟩ := h
  have hge1 : 1 ≤ buf.num_pulses := by
    have : (16 : Nat) ≤ PD_MIN_PULSES := by decide
    omega
  unfold pulse_FSK_wrap_up
  dsimp only
  split_ifs with h1 h2 <;> unfold FSKPacketOk <;> dsimp only <;> intro k hk
  · -- F1: store trailing pulse and zero gap
    rcases Nat.lt_succ_iff_lt_or_eq.mp hk with hk' | hk'
    · refine ⟨?_, ?_⟩
      · rw [Function.update_apply, if_neg (by omega)]
        rcases Nat.eq_zero_or_pos k with hz | hpos
        · subst hz
          rcases hp0 hge1 with hz0 | hge0
          · exact Or.inr (Or.inl ⟨rfl, by rw [Function.update_apply, if_neg (by omega)]; exact hz0⟩)
          · exact Or.inl hge0
        · exact Or.inl (hpul k hpos hk')
      · rw [Function.update_apply, if_neg (by omega)]
        exact Or.inl (hgap k hk')
    · subst hk'
      exact ⟨Or.inr (Or.inr rfl), Or.inr rfl⟩
  · -- not F1: store trailing gap only
    rcases Nat.lt_succ_iff_lt_or_eq.mp hk with hk' | hk'
    · refine ⟨?_, ?_⟩
      · rcases Nat.eq_zero_or_pos k with hz | hpos
        · subst hz
          rcases hp0 hge1 with hz0 | hge0
          · exact Or.inr (Or.inl ⟨rfl, hz0⟩)
          · exact Or.inl hge0
        · exact Or.inl (hpul k hpos hk')
      · rw [Function.update_apply, if_neg (by omega)]
        exact Or.inl (hgap k hk')
    · subst hk'
      exact ⟨Or.inr (Or.inr rfl), Or.inr rfl⟩
  · -- buffer full: unchanged
    refine ⟨?_, Or.inl (hgap k hk)⟩
    rcases Nat.eq_zero_or_pos k with hz | hpos
    · subst hz
      rcases hp0 hge1 with hz0 | hge0
      · exact Or.inr (Or.inl ⟨rfl, hz0⟩)
      · exact Or.inl hge0
    · exact Or.inl (hpul k hpos hk)

/-- The FSK invariant holds for a cleared buffer and zeroed sub-state. -/
theorem FSKInv_cleared (off : Nat) :
    FSKInv { pulse_data_clear with offset := off }
      { fsk_pulse_length := 0, fsk_state := .INIT, fm_f1_est := 0, fm_f2_est := 0 } := by
  unfold FSKInv pulse_data_clear
  exact ⟨fun _ => rfl, by simp, by simp, fun k hk => by simp at hk,
    fun k h1 hk => by simp at hk, fun hk => by simp at hk⟩

set_option maxHeartbeats 1000000 in
/-- The per-sample switch preserves the detector invariant, and any packet it
returns satisfies the corresponding minimum-width property (`samples_per_ms`
is nonnegative, as it is a `uint32_t / 1000` quotient in the caller). -/
theorem ookSwitch_detinv (level_limit samples_per_ms : Int) (sample_offset : Nat)
    (am_n fm_n : Int) (w : World) (hspm : 0 ≤ samples_per_ms) (h : DetInv w) :
    match ookSwitch level_limit samples_per_ms sample_offset am_n fm_n w with
    | Sum.inl (r, w') => DetInv w' ∧ (r = 1 → OOKPacketOk w'.pulses) ∧
        (r = 2 → FSKPacketOk w'.fsk_pulses)
    | Sum.inr w' => DetInv w' := by
  unfold ookSwitch
  cases hst : w.s.ook_state with
  | IDLE =>
      dsimp only
      split_ifs with h1 h2
      · -- arm a new packet
        unfold DetInv OOKPacketOk pulse_data_clear
        dsimp only
        intro _
        refine ⟨fun k hk => absurd hk (by omega), by decide,
          FSKInv_cleared _, ?_, ?_⟩
        · intro hx
          rcases hx with hx | hx <;> exact absurd hx (by decide)
        · intro hx
          exact absurd hx (by decide)
      all_goals
        (unfold DetInv
         dsimp only
         intro hne
         exact absurd hst hne)
  | PULSE =>
      obtain ⟨hOk, hlt, hfsk, -, -⟩ := h (by rw [hst]; decide)
      dsimp only
      split_ifs with h1 h2 h3 h4 h5
      all_goals unfold DetInv OOKPacketOk
      all_goals dsimp only
      -- (h1, h2, h3): spurious short pulse, to IDLE, FSK fed
      · intro hne; exact absurd rfl hne
      -- (h1, h2, ¬h3): spurious short pulse, to IDLE
      · intro hne; exact absurd rfl hne
      -- (h1, ¬h2, h4): store pulse, to GAP_START, FSK fed
      · intro _
        refine ⟨?_, hlt, pulse_FSK_detect_inv _ _ _ hfsk, ?_, ?_⟩
        · intro k hk
          refine ⟨?_, (hOk k hk).2⟩
          rw [Function.update_apply, if_neg (by omega)]
          exact (hOk k hk).1
        · intro _
          rw [Function.update_same]
          omega
        · intro hx
          exact absurd hx (by decide)
      -- (h1, ¬h2, ¬h4): store pulse, to GAP_START
      · intro _
        refine ⟨?_, hlt, hfsk, ?_, ?_⟩
        · intro k hk
          refine ⟨?_, (hOk k hk).2⟩
          rw [Function.update_apply, if_neg (by omega)]
          exact (hOk k hk).1
        · intro _
          rw [Function.update_same]
          omega
        · intro hx
          exact absurd hx (by decide)
      -- (¬h1, h5): still pulse, FSK fed
      · intro _
        refine ⟨fun k hk => hOk k hk, hlt, pulse_FSK_detect_inv _ _ _ hfsk, ?_, ?_⟩
        · intro hx
          rcases hx with hx | hx <;> rw [hst] at hx <;> exact absurd hx (by decide)
        · intro hx
          rw [hst] at hx
          exact absurd hx (by decide)
      -- (¬h1, ¬h5): still pulse
      · intro _
        refine ⟨fun k hk => hOk k hk, hlt, hfsk, ?_, ?_⟩
        · intro hx
          rcases hx with hx | hx <;> rw [hst] at hx <;> exact absurd hx (by decide)
        · intro hx
          rw [hst] at hx
          exact absurd hx (by decide)
  | GAP_START =>
      obtain ⟨hOk, hlt, hfsk, hpend, -⟩ := h (by rw [hst]; decide)
      have hpendv : w.pulses.pulse w.pulses.num_pulses ≥ PD_MIN_PULSE_SAMPLES :=
        hpend (Or.inl hst)
      dsimp only
      split_ifs with h1 h2 h3 h4 h5 h6
      all_goals unfold DetInv OOKPacketOk
      all_goals dsimp only
      -- (h1, h2): spurious gap, back to PULSE, FSK fed
      · intro _
        refine ⟨fun k hk => hOk k hk, hlt, pulse_FSK_detect_inv _ _ _ hfsk, ?_, ?_⟩
        · intro hx
          rcases hx with hx | hx <;> exact absurd hx (by decide)
        · intro hx
          exact absurd hx (by decide)
      -- (h1, ¬h2): spurious gap, back to PULSE
      · intro _
        refine ⟨fun k hk => hOk k hk, hlt, hfsk, ?_, ?_⟩
        · intro hx
          rcases hx with hx | hx <;> exact absurd hx (by decide)
        · intro hx
          exact absurd hx (by decide)
      -- (¬h1, h3, h4): FSK detected, wrap up and return 2
      · refine ⟨?_, ?_, ?_⟩
        · intro hne; exact absurd rfl hne
        · intro hr; exact absurd hr (by omega)
        · intro _
          have hw := pulse_FSK_wrap_up_packet_ok w.fsk_pulses w.s.FSK_state hfsk h4
          unfold FSKPacketOk at hw ⊢
          dsimp only
          exact hw
      -- (¬h1, h3, ¬h4, h5): commit to GAP, FSK fed
      · intro _
        refine ⟨fun k hk => hOk k hk, hlt, pulse_FSK_detect_inv _ _ _ hfsk,
          fun _ => hpendv, fun _ => h3⟩
      -- (¬h1, h3, ¬h4, ¬h5): commit to GAP
      · intro _
        exact ⟨fun k hk => hOk k hk, hlt, hfsk, fun _ => hpendv, fun _ => h3⟩
      -- (¬h1, ¬h3, h6): still GAP_START, FSK fed
      · intro _
        refine ⟨fun k hk => hOk k hk, hlt, pulse_FSK_detect_inv _ _ _ hfsk,
          fun _ => hpendv, ?_⟩
        intro hx
        rw [hst] at hx
        exact absurd hx (by decide)
      -- (¬h1, ¬h3, ¬h6): still GAP_START
      · intro _
        refine ⟨fun k hk => hOk k hk, hlt, hfsk, fun _ => hpendv, ?_⟩
        intro hx
        rw [hst] at hx
        exact absurd hx (by decide)
  | GAP =>
      obtain ⟨hOk, hlt, hfsk, hpend, hgapc⟩ := h (by rw [hst]; decide)
      have hpendv : w.pulses.pulse w.pulses.num_pulses ≥ PD_MIN_PULSE_SAMPLES :=
        hpend (Or.inr hst)
      have hgapv : w.s.pulse_length ≥ PD_MIN_PULSE_SAMPLES := hgapc hst
      dsimp only
      split_ifs with h1 h2
      all_goals dsimp only
      -- (h1, h2): rising edge, pulse count overflow, return 1
      · refine ⟨?_, ?_, ?_⟩
        · unfold DetInv; dsimp only; intro hne; exact absurd rfl hne
        · intro _
          unfold OOKPacketOk
          dsimp only
          intro k hk
          rcases Nat.lt_succ_iff_lt_or_eq.mp hk with hk' | hk'
          · refine ⟨(hOk k hk').1, ?_⟩
            rw [Function.update_apply, if_neg (by omega)]
            exact (hOk k hk').2
          · subst hk'
            refine ⟨hpendv, ?_⟩
            rw [Function.update_same]
            omega
        · intro hr; exact absurd hr (by omega)
      -- (h1, ¬h2): rising edge, next pulse; the long-gap test cannot fire
      · split_ifs with h3
        · exact absurd h3 (by
            simp only [PD_MIN_GAP_MS, PD_MAX_GAP_MS]
            push_neg
            refine ⟨fun _ => by omega, by omega⟩)
        · unfold DetInv OOKPacketOk
          dsimp only
          intro _
          refine ⟨?_, by omega, hfsk, ?_, ?_⟩
          · intro k hk
            rcases Nat.lt_succ_iff_lt_or_eq.mp hk with hk' | hk'
            · refine ⟨(hOk k hk').1, ?_⟩
              rw [Function.update_apply, if_neg (by omega)]
              exact (hOk k hk').2
            · subst hk'
              refine ⟨hpendv, ?_⟩
              rw [Function.update_same]
              omega
          · intro hx
            rcases hx with hx | hx <;> exact absurd hx (by decide)
          · intro hx
            exact absurd hx (by decide)
      -- (¬h1): no rising edge; maybe the gap is too long
      · split_ifs with h3
        · -- gap too long: return 1
          refine ⟨?_, ?_, ?_⟩
          · unfold DetInv; dsimp only; intro hne; exact absurd rfl hne
          · intro _
            unfold OOKPacketOk
            dsimp only
            intro k hk
            rcases Nat.lt_succ_iff_lt_or_eq.mp hk with hk' | hk'
            · refine ⟨(hOk k hk').1, ?_⟩
              rw [Function.update_apply, if_neg (by omega)]
              exact (hOk k hk').2
            · subst hk'
              refine ⟨hpendv, ?_⟩
              rw [Function.update_same]
              omega
          · intro hr; exact absurd hr (by omega)
        · -- still in the gap
          unfold DetInv OOKPacketOk
          dsimp only
          intro _
          refine ⟨fun k hk => hOk k hk, hlt, hfsk, fun _ => hpendv, fun _ => by omega⟩

/-- The loop body preserves the detector invariant and emission properties. -/
theorem detectBody_detinv (level_limit samples_per_ms : Int) (sample_offset : Nat)
    (am_n fm_n : Int) (w : World) (hspm : 0 ≤ samples_per_ms) (h : DetInv w) :
    match detectBody level_limit samples_per_ms sample_offset am_n fm_n w with
    | Sum.inl (r, w') => DetInv w' ∧ (r = 1 → OOKPacketOk w'.pulses) ∧
        (r = 2 → FSKPacketOk w'.fsk_pulses)
    | Sum.inr w' => DetInv w' := by
  have hsw := ookSwitch_detinv level_limit samples_per_ms sample_offset am_n fm_n w
    hspm h
  unfold detectBody
  cases hb : ookSwitch level_limit samples_per_ms sample_offset am_n fm_n w with
  | inl q =>
      rw [hb] at hsw
      obtain ⟨r0, w0⟩ := q
      exact hsw
  | inr w0 =>
      rw [hb] at hsw
      -- only the cursor changes; the invariant does not mention it
      obtain ⟨s0, p0, f0⟩ := w0
      unfold DetInv at hsw ⊢
      dsimp only at hsw ⊢
      exact hsw

/-- The sample loop preserves the detector invariant and emission
properties. -/
theorem detectLoop_detinv (level_limit samples_per_ms : Int) (sample_offset : Nat)
    (lst : List (Int × Int)) (hspm : 0 ≤ samples_per_ms) :
    ∀ (w : World) (k : Nat), DetInv w →
      DetInv (detectLoop level_limit samples_per_ms sample_offset lst w k).2.1 ∧
      ((detectLoop level_limit samples_per_ms sample_offset lst w k).1 = 1 →
        OOKPacketOk
          (detectLoop level_limit samples_per_ms sample_offset lst w k).2.1.pulses) ∧
      ((detectLoop level_limit samples_per_ms sample_offset lst w k).1 = 2 →
        FSKPacketOk
          (detectLoop level_limit samples_per_ms sample_offset lst w k
            ).2.1.fsk_pulses) := by
  induction lst with
  | nil =>
      intro w k h
      unfold detectLoop
      refine ⟨?_, by intro hr; exact absurd hr (by omega),
        by intro hr; exact absurd hr (by omega)⟩
      obtain ⟨s0, p0, f0⟩ := w
      unfold DetInv at h ⊢
      dsimp only at h ⊢
      exact h
  | cons p rest ih =>
      obtain ⟨a, f⟩ := p
      intro w k h
      have hbd := detectBody_detinv level_limit samples_per_ms sample_offset a f w
        hspm h
      unfold detectLoop
      cases hb : detectBody level_limit samples_per_ms sample_offset a f w with
      | inl q =>
          obtain ⟨r0, w0⟩ := q
          rw [hb] at hbd
          exact hbd
      | inr w0 =>
          rw [hb] at hbd
          exact ih w0 (k + 1) hbd

/-- C2 (amended): from any invariant-satisfying detector configuration (the
zero-initialized one included), a call to `pulse_detect_package` preserves
the invariant, every OOK packet it returns has all pulses and all gaps (the
final one included) at least `PD_MIN_PULSE_SAMPLES`, and every FSK packet it
returns has all pulses and gaps at least `PD_MIN_PULSE_SAMPLES` except the
slot-0 zero-pulse sentinel and the final wrap-up slot, whose pulse is the
residual timer and whose gap may be 0. -/
theorem C2_packet_min_widths (env fm : List Int) (level_limit : Int)
    (samp_rate sample_offset : Nat) (w : World) (h : DetInv w) :
    DetInv (pulse_detect_package env fm level_limit samp_rate sample_offset w).2.1 ∧
    ((pulse_detect_package env fm level_limit samp_rate sample_offset w).1 = 1 →
      OOKPacketOk
        (pulse_detect_package env fm level_limit samp_rate sample_offset w
          ).2.1.pulses) ∧
    ((pulse_detect_package env fm level_limit samp_rate sample_offset w).1 = 2 →
      FSKPacketOk
        (pulse_detect_package env fm level_limit samp_rate sample_offset w
          ).2.1.fsk_pulses) := by
  unfold pulse_detect_package
  refine detectLoop_detinv _ _ _ _ (by positivity) _ 0 ?_
  obtain ⟨s0, p0, f0⟩ := w
  unfold DetInv at h ⊢
  dsimp only at h ⊢
  exact h

set_option maxRecDepth 4000 in
/-- C2 counterexample: an FSK packet emitted by `pulse_detect_package` (from
an invariant-satisfying mid-packet configuration) whose final gap is 0 — the
wrap-up zero gap — which is below `PD_MIN_PULSE_SAMPLES` and is neither the
`pulse[0] = 0` sentinel (it is a gap) nor the final OOK gap, refuting the
claim that those are the only exceptions. -/
theorem C2_counterexample :
    DetInv fskBusyWorld ∧
    (pulse_detect_package (List.replicate 11 0) (List.replicate 11 5000) 0 1000 0
        fskBusyWorld).1 = 2 ∧
    (pulse_detect_package (List.replicate 11 0) (List.replicate 11 5000) 0 1000 0
        fskBusyWorld).2.1.fsk_pulses.num_pulses = 18 ∧
    (pulse_detect_package (List.replicate 11 0) (List.replicate 11 5000) 0 1000 0
        fskBusyWorld).2.1.fsk_pulses.gap 17 = 0 ∧
    ¬ ((pulse_detect_package (List.replicate 11 0) (List.replicate 11 5000) 0 1000 0
          fskBusyWorld).2.1.fsk_pulses.gap 17 ≥ PD_MIN_PULSE_SAMPLES) :=
  ⟨fskBusyWorld_inv, by decide, by decide, by decide, by decide⟩

set_option maxRecDepth 4000 in
/-- Witness for the amended C2 at the same concrete FSK-emitting call. -/
theorem C2_witness :
    DetInv fskBusyWorld ∧
    (pulse_detect_package (List.replicate 11 0) (List.replicate 11 5000) 0 1000 0
        fskBusyWorld).1 = 2 ∧
    FSKPacketOk
      (pulse_detect_package (List.replicate 11 0) (List.replicate 11 5000) 0 1000 0
        fskBusyWorld).2.1.fsk_pulses :=
  ⟨fskBusyWorld_inv, by decide,
   (C2_packet_min_widths (List.replicate 11 0) (List.replicate 11 5000) 0 1000 0
      fskBusyWorld fskBusyWorld_inv).2.2 (by decide)⟩

def MAX_HIST_BINS : Nat := 16

/-- `hist_bin_t`: one histogram bin. -/
structure HistBin where
  count : Nat
  sum : Int
  mean : Int
  min : Int
  max : Int
deriving DecidableEq, Repr

/-- `histogram_t`: the live prefix of the 16-bin array (`bins_count` is the
list length). -/
structure Histogram where
  bins : List HistBin
deriving DecidableEq, Repr

/-- The empty (zeroed) histogram. -/
def Histogram.empty : Histogram := ⟨[]⟩

/-- The C mean computation `sum / count`: `int` sum converted to `unsigned`,
unsigned division, result stored back into an `int` field. -/
def c_mean (sum : Int) (count : Nat) : Int :=
  toInt32 (Int.ofNat (toUInt32val sum / count))

/-- The tolerance test `abs(bn - bm) < tolerance * max(bn, bm)` (the float
product is modelled by exact rational arithmetic). -/
def histClose (tol : ℚ) (bn bm : Int) : Prop :=
  ((|bn - bm| : ℤ) : ℚ) < tol * ((max bn bm : ℤ) : ℚ)

instance (tol : ℚ) (bn bm : Int) : Decidable (histClose tol bn bm) :=
  decidable_of_iff (|bn - bm| * (tol.den : Int) < tol.num * (max bn bm)) (by
    unfold histClose
    have hden : (0 : ℚ) < ((tol.den : Int) : ℚ) := by
      exact_mod_cast tol.den_pos
    have hmul : tol * ((max bn bm : ℤ) : ℚ) =
        ((tol.num * (max bn bm) : ℤ) : ℚ) / ((tol.den : ℤ) : ℚ) := by
      rw [eq_div_iff hden.ne']
      push_cast
      nth_rewrite 1 [← Rat.num_div_den tol]
      field_simp
    rw [hmul, lt_div_iff₀ hden]
    exact_mod_cast Iff.rfl)

/-- One iteration of the data loop of `histogram_sum` (lines 441-464): find
the first bin whose mean matches within tolerance and fold the value in;
otherwise open a new bin if fewer than 16 exist, else drop the value. -/
def histAddOne (tol : ℚ) (h : Histogram) (v : Int) : Histogram :=
  match h.bins.findIdx? (fun b => decide (histClose tol v b.mean)) with
  | some i =>
      let b := h.bins.getD i ⟨0, 0, 0, 0, 0⟩
      ⟨h.bins.set i
        { count := b.count + 1, sum := b.sum + v, mean := c_mean (b.sum + v) (b.count + 1),
          min := min v b.min, max := max v b.max }⟩
  | none =>
      if h.bins.length < MAX_HIST_BINS then ⟨h.bins ++ [⟨1, v, v, v, v⟩]⟩ else h

/-- `histogram_sum`: fold a data vector into the histogram. -/
def histogram_sum (h : Histogram) (data : List Int) (tol : ℚ) : Histogram :=
  data.foldl (histAddOne tol) h

/-- Total of all bin counts. -/
def histCountTotal (h : Histogram) : Nat := (h.bins.map (fun b => b.count)).sum

/-- Total of all bin sums. -/
def histSumTotal (h : Histogram) : Int := (h.bins.map (fun b => b.sum)).sum

/-- `histogram_sum` never drops a value on this histogram/vector pair: every
value either matches an existing bin or finds room for a new one. -/
def histNoDrop (tol : ℚ) : Histogram → List Int → Bool
  | _, [] => true
  | h, v :: rest =>
      ((h.bins.findIdx? (fun b => decide (histClose tol v b.mean))).isSome ||
        decide (h.bins.length < MAX_HIST_BINS)) &&
      histNoDrop tol (histAddOne tol h v) rest

/-- Setting entry `i` of the bin list to the folded-in bin adds exactly one
to the count total and `v` to the sum total. -/
theorem histTotals_set (l : List HistBin) (v : Int) :
    ∀ i, i < l.length →
      ((l.set i
        { count := (l.getD i ⟨0, 0, 0, 0, 0⟩).count + 1,
          sum := (l.getD i ⟨0, 0, 0, 0, 0⟩).sum + v,
          mean := c_mean ((l.getD i ⟨0, 0, 0, 0, 0⟩).sum + v)
                    ((l.getD i ⟨0, 0, 0, 0, 0⟩).count + 1),
          min := min v (l.getD i ⟨0, 0, 0, 0, 0⟩).min,
          max := max v (l.getD i ⟨0, 0, 0, 0, 0⟩).max }).map
            (fun b => b.count)).sum =
        (l.map (fun b => b.count)).sum + 1 ∧
      ((l.set i
        { count := (l.getD i ⟨0, 0, 0, 0, 0⟩).count + 1,
          sum := (l.getD i ⟨0, 0, 0, 0, 0⟩).sum + v,
          mean := c_mean ((l.getD i ⟨0, 0, 0, 0, 0⟩).sum + v)
                    ((l.getD i ⟨0, 0, 0, 0, 0⟩).count + 1),
          min := min v (l.getD i ⟨0, 0, 0, 0, 0⟩).min,
          max := max v (l.getD i ⟨0, 0, 0, 0, 0⟩).max }).map
            (fun b => b.sum)).sum =
        (l.map (fun b => b.sum)).sum + v := by
  induction l with
  | nil => intro i hi; simp at hi
  | cons x xs ih =>
      intro i hi
      cases i with
      | zero =>
          simp only [List.set_cons_zero, List.getD_cons_zero, List.map, List.sum_cons]
          constructor <;> dsimp only <;> omega
      | succ j =>
          have hj : j < xs.length := by simpa using hi
          have := ih j hj
          simp only [List.set_cons_succ, List.getD_cons_succ, List.map, List.sum_cons]
          constructor <;> omega

/-- One no-drop insertion advances both totals. -/
theorem histAddOne_totals (tol : ℚ) (h : Histogram) (v : Int)
    (hnd : (h.bins.findIdx? (fun b => decide (histClose tol v b.mean))).isSome ∨
      h.bins.length < MAX_HIST_BINS) :
    histCountTotal (histAddOne tol h v) = histCountTotal h + 1 ∧
    histSumTotal (histAddOne tol h v) = histSumTotal h + v := by
  unfold histAddOne histCountTotal histSumTotal
  cases hf : h.bins.findIdx? (fun b => decide (histClose tol v b.mean)) with
  | some i =>
      have hi : i < h.bins.length :=
        (List.findIdx?_eq_some_iff_findIdx_eq.mp hf).1
      have := histTotals_set h.bins v i hi
      dsimp only
      exact this
  | none =>
      rw [hf] at hnd
      have hlt : h.bins.length < MAX_HIST_BINS := by
        rcases hnd with hx | hx
        · simp at hx
        · exact hx
      rw [if_pos hlt]
      constructor <;> simp

/-- C3 (amended, general form): provided no value is dropped, summing a
vector into a histogram adds the vector length to the count total and the
vector sum to the sum total. -/
theorem histogram_sum_totals (tol : ℚ) (data : List Int) :
    ∀ h : Histogram, histNoDrop tol h data = true →
      histCountTotal (histogram_sum h data tol) = histCountTotal h + data.length ∧
      histSumTotal (histogram_sum h data tol) = histSumTotal h + data.sum := by
  induction data with
  | nil =>
      intro h _
      unfold histogram_sum
      simp
  | cons v rest ih =>
      intro h hnd
      unfold histNoDrop at hnd
      rw [Bool.and_eq_true, Bool.or_eq_true] at hnd
      obtain ⟨hnd1, hnd2⟩ := hnd
      have hone := histAddOne_totals tol h v (by
        rcases hnd1 with hx | hx
        · exact Or.inl (by simpa using hx)
        · exact Or.inr (by simpa using hx))
      have hrest := ih (histAddOne tol h v) hnd2
      unfold histogram_sum at hrest ⊢
      simp only [List.foldl_cons]
      rw [hrest.1, hrest.2, hone.1, hone.2]
      refine ⟨by simp; omega, by simp; ring⟩

/-- C3 (amended): starting from the empty histogram, if no value of `v` is
dropped (in particular whenever at most 16 bins are ever needed), the total
of bin counts is the length of `v` and the total of bin sums is the sum of
`v`. Without the no-drop hypothesis this fails: see the counterexample. -/
theorem C3_histogram_totals (tol : ℚ) (v : List Int)
    (hnd : histNoDrop tol Histogram.empty v = true) :
    histCountTotal (histogram_sum Histogram.empty v tol) = v.length ∧
    histSumTotal (histogram_sum Histogram.empty v tol) = v.sum := by
  have := histogram_sum_totals tol v Histogram.empty hnd
  simpa [histCountTotal, histSumTotal, Histogram.empty] using this

/-- Seventeen pairwise-far values: each is double the previous, so no two
ever share a bin at tolerance 1/5. -/
def farValues : List Int := (List.range 17).map (fun k => 100 * 2 ^ k)

/-- C3 counterexample: with 17 mutually distant values the 17th insertion
finds all 16 bins occupied and is silently dropped, so the count total is 16,
not `|v| = 17`, and the sum total is short by the dropped value. -/
theorem C3_counterexample :
    farValues.length = 17 ∧
    histCountTotal (histogram_sum Histogram.empty farValues (mkRat 1 5)) = 16 ∧
    histCountTotal (histogram_sum Histogram.empty farValues (mkRat 1 5)) ≠
      farValues.length ∧
    histSumTotal (histogram_sum Histogram.empty farValues (mkRat 1 5)) ≠
      farValues.sum := by
  refine ⟨by decide, by decide, by decide, by decide⟩

/-- Witness for the amended C3 on a concrete three-value vector. -/
theorem C3_witness :
    histNoDrop (mkRat 1 5) Histogram.empty [100, 105, 500] = true ∧
    histCountTotal (histogram_sum Histogram.empty [100, 105, 500] (mkRat 1 5)) = 3 ∧
    histSumTotal (histogram_sum Histogram.empty [100, 105, 500] (mkRat 1 5)) = 705 := by
  have h := C3_histogram_totals (mkRat 1 5) [100, 105, 500] (by decide)
  exact ⟨by decide, by rw [h.1]; decide, by rw [h.2]; decide⟩

/-- The all-zero bin (array slots beyond `bins_count` are zeroed). -/
def defaultBin : HistBin := ⟨0, 0, 0, 0, 0⟩

/-- `histogram_delete_bin` (lines 469-478): compact-left removal; an index at
or past the live prefix still drops the last bin (the shift loop body never
runs, `bins_count` is still decremented). -/
def histogram_delete_bin (h : Histogram) (i : Nat) : Histogram :=
  if h.bins.length < 1 then h
  else if i < h.bins.length then ⟨h.bins.eraseIdx i⟩
  else ⟨h.bins.dropLast⟩

theorem histogram_delete_bin_length (h : Histogram) (i : Nat)
    (hi : i < h.bins.length) :
    (histogram_delete_bin h i).bins.length = h.bins.length - 1 := by
  unfold histogram_delete_bin
  rw [if_neg (by omega), if_pos hi]
  exact List.length_eraseIdx_of_lt hi

/-- `histogram_swap_bins` (lines 482-489). -/
def histogram_swap_bins (h : Histogram) (index1 index2 : Nat) : Histogram :=
  if index1 < h.bins.length ∧ index2 < h.bins.length then
    ⟨(h.bins.set index1 (h.bins.getD index2 defaultBin)).set index2
       (h.bins.getD index1 defaultBin)⟩
  else h

theorem histogram_swap_bins_length (h : Histogram) (i j : Nat) :
    (histogram_swap_bins h i j).bins.length = h.bins.length := by
  unfold histogram_swap_bins
  split_ifs <;> simp

/-- The merged bin of the fuse loop (lines 530-534). -/
def fuseMerged (bn bm : HistBin) : HistBin :=
  { count := bn.count + bm.count, sum := bn.sum + bm.sum,
    mean := c_mean (bn.sum + bm.sum) (bn.count + bm.count),
    min := min bn.min bm.min, max := max bn.max bm.max }

/-- Inner `for m` loop of `histogram_fuse_bins` (lines 525-539), with a
structural iteration counter: each iteration decreases `bins_count - m` by
exactly one (a merge deletes one bin keeping `m`, a non-merge increments
`m`), so running it with counter `bins_count - m` is exactly the C loop,
which exits once `m ≥ bins_count`. -/
def fuseInnerAux (tol : ℚ) : Nat → Histogram → Nat → Nat → Histogram
  | 0, h, _, _ => h
  | fuel + 1, h, n, m =>
      if m < h.bins.length then
        if histClose tol (h.bins.getD n defaultBin).mean
            (h.bins.getD m defaultBin).mean then
          fuseInnerAux tol fuel
            (histogram_delete_bin
              ⟨h.bins.set n
                (fuseMerged (h.bins.getD n defaultBin) (h.bins.getD m defaultBin))⟩
              m) n m
        else fuseInnerAux tol fuel h n (m + 1)
      else h

theorem fuseInnerAux_length_le (tol : ℚ) (fuel : Nat) :
    ∀ (h : Histogram) (n m : Nat),
      (fuseInnerAux tol fuel h n m).bins.length ≤ h.bins.length := by
  induction fuel with
  | zero => intro h n m; exact le_refl _
  | succ fuel ih =>
      intro h n m
      unfold fuseInnerAux
      split_ifs with h1 h2
      · refine le_trans (ih _ n m) ?_
        rw [histogram_delete_bin_length _ m (by simpa using h1)]
        simp
      · exact ih h n (m + 1)
      · exact le_refl _

theorem fuseInnerAux_eq_or_lt (tol : ℚ) (fuel : Nat) :
    ∀ (h : Histogram) (n m : Nat),
      fuseInnerAux tol fuel h n m = h ∨
      (fuseInnerAux tol fuel h n m).bins.length < h.bins.length := by
  induction fuel with
  | zero => intro h n m; exact Or.inl rfl
  | succ fuel ih =>
      intro h n m
      unfold fuseInnerAux
      split_ifs with h1 h2
      · right
        have hle := fuseInnerAux_length_le tol fuel
          (histogram_delete_bin
            ⟨h.bins.set n
              (fuseMerged (h.bins.getD n defaultBin) (h.bins.getD m defaultBin))⟩
            m) n m
        rw [histogram_delete_bin_length _ m (by simpa using h1)] at hle
        simp only [List.length_set] at hle
        omega
      · exact ih h n (m + 1)
      · exact Or.inl rfl

/-- Outer `for n` loop of `histogram_fuse_bins` (lines 524-541), with a
structural iteration counter: each iteration increments `n` while
`bins_count` never grows, so `bins_count - n` strictly decreases and a
counter starting at `bins_count` covers the whole loop; when the counter
reaches 0, `bins_count - n = 0`, so the loop condition `n < bins_count - 1`
is false and the C loop exits as well. -/
def fuseOuterAux (tol : ℚ) : Nat → Histogram → Nat → Histogram
  | 0, h, _ => h
  | fuel + 1, h, n =>
      if n + 1 < h.bins.length then
        fuseOuterAux tol fuel
          (fuseInnerAux tol (h.bins.length - (n + 1)) h n (n + 1)) (n + 1)
      else h

theorem fuseOuterAux_length_le (tol : ℚ) (fuel : Nat) :
    ∀ (h : Histogram) (n : Nat),
      (fuseOuterAux tol fuel h n).bins.length ≤ h.bins.length := by
  induction fuel with
  | zero => intro h n; exact le_refl _
  | succ fuel ih =>
      intro h n
      unfold fuseOuterAux
      split_ifs with h1
      · exact le_trans (ih _ (n + 1)) (fuseInnerAux_length_le tol _ h n (n + 1))
      · exact le_refl _

theorem fuseOuterAux_eq_or_lt (tol : ℚ) (fuel : Nat) :
    ∀ (h : Histogram) (n : Nat),
      fuseOuterAux tol fuel h n = h ∨
      (fuseOuterAux tol fuel h n).bins.length < h.bins.length := by
  induction fuel with
  | zero => intro h n; exact Or.inl rfl
  | succ fuel ih =>
      intro h n
      unfold fuseOuterAux
      split_ifs with h1
      · rcases fuseInnerAux_eq_or_lt tol (h.bins.length - (n + 1)) h n (n + 1) with
          he | hlt
        · rw [he]
          exact ih h (n + 1)
        · right
          have := fuseOuterAux_length_le tol fuel
            (fuseInnerAux tol (h.bins.length - (n + 1)) h n (n + 1)) (n + 1)
          omega
      · exact Or.inl rfl

/-- `histogram_fuse_bins` (lines 521-541). -/
def histogram_fuse_bins (h : Histogram) (tol : ℚ) : Histogram :=
  if h.bins.length < 2 then h else fuseOuterAux tol h.bins.length h 0

/-- One application of fuse either leaves the histogram unchanged or strictly
decreases the number of bins. -/
theorem histogram_fuse_bins_eq_or_lt (h : Histogram) (tol : ℚ) :
    histogram_fuse_bins h tol = h ∨
    (histogram_fuse_bins h tol).bins.length < h.bins.length := by
  unfold histogram_fuse_bins
  split_ifs with h1
  · exact Or.inl rfl
  · exact fuseOuterAux_eq_or_lt tol h.bins.length h 0

/-- Iterating fuse `k ≥ bins_count` times reaches a fixed point. -/
theorem histogram_fuse_bins_iterate_fixed (tol : ℚ) :
    ∀ (k : Nat) (h : Histogram), h.bins.length ≤ k →
      histogram_fuse_bins ((fun hh => histogram_fuse_bins hh tol)^[k] h) tol =
        (fun hh => histogram_fuse_bins hh tol)^[k] h := by
  intro k
  induction k with
  | zero =>
      intro h hk
      simp only [Function.iterate_zero, id]
      unfold histogram_fuse_bins
      rw [if_pos (by omega)]
  | succ k ih =>
      intro h hk
      rcases histogram_fuse_bins_eq_or_lt h tol with he | hlt
      · have hfix : (fun hh => histogram_fuse_bins hh tol) h = h := he
        have hall : (fun hh => histogram_fuse_bins hh tol)^[k + 1] h = h :=
          @Function.iterate_fixed _ (fun hh => histogram_fuse_bins hh tol) h hfix (k + 1)
        rw [hall]
        exact he
      · rw [Function.iterate_succ_apply]
        exact ih (histogram_fuse_bins h tol) (by omega)

/-- C8 (amended): `histogram_fuse_bins` is not idempotent (see the
counterexample: a merge can move a bin's mean into tolerance of an
already-scanned bin), but each application either leaves the histogram
unchanged or strictly decreases the bin count, so iterating it `bins_count`
times does reach a fixed point. -/
theorem C8_fuse_dichotomy_and_iterate (tol : ℚ) (h : Histogram) :
    (histogram_fuse_bins h tol = h ∨
      (histogram_fuse_bins h tol).bins.length < h.bins.length) ∧
    histogram_fuse_bins
        ((fun hh => histogram_fuse_bins hh tol)^[h.bins.length] h) tol =
      (fun hh => histogram_fuse_bins hh tol)^[h.bins.length] h :=
  ⟨histogram_fuse_bins_eq_or_lt h tol,
   histogram_fuse_bins_iterate_fixed tol h.bins.length h (le_refl _)⟩

/-- Bins with means 100, 130, 124: fusing merges 100 with 124 (24 < 24.8)
into mean 112, which is now within tolerance of 130 (18 < 26) — but 130 was
already scanned, so one fuse pass leaves the pair unmerged. -/
def nonIdemHist : Histogram :=
  ⟨[⟨1, 100, 100, 100, 100⟩, ⟨1, 130, 130, 130, 130⟩, ⟨1, 124, 124, 124, 124⟩]⟩

/-- C8 counterexample: fuse(fuse(h)) ≠ fuse(h) at tolerance 0.2. -/
theorem C8_counterexample :
    histogram_fuse_bins nonIdemHist (mkRat 1 5) =
      ⟨[⟨2, 224, 112, 100, 124⟩, ⟨1, 130, 130, 130, 130⟩]⟩ ∧
    histogram_fuse_bins (histogram_fuse_bins nonIdemHist (mkRat 1 5)) (mkRat 1 5) ≠
      histogram_fuse_bins nonIdemHist (mkRat 1 5) := by
  constructor <;> decide

/-- Inner loop of `histogram_sort_mean` (lines 496-502); swap preserves the
bin count, so `bins_count - m` decreases by exactly one per iteration and is
the structural iteration counter. -/
def sortMeanInnerAux : Nat → Histogram → Nat → Nat → Histogram
  | 0, h, _, _ => h
  | fuel + 1, h, n, m =>
      if m < h.bins.length then
        if (h.bins.getD m defaultBin).mean < (h.bins.getD n defaultBin).mean then
          sortMeanInnerAux fuel (histogram_swap_bins h m n) n (m + 1)
        else sortMeanInnerAux fuel h n (m + 1)
      else h

/-- Outer loop of `histogram_sort_mean`; the bin count is constant, so
`bins_count - n` is the structural iteration counter. -/
def sortMeanOuterAux : Nat → Histogram → Nat → Histogram
  | 0, h, _ => h
  | fuel + 1, h, n =>
      if n + 1 < h.bins.length then
        sortMeanOuterAux fuel
          (sortMeanInnerAux (h.bins.length - (n + 1)) h n (n + 1)) (n + 1)
      else h

/-- `histogram_sort_mean` (lines 493-503). -/
def histogram_sort_mean (h : Histogram) : Histogram :=
  if h.bins.length < 2 then h else sortMeanOuterAux h.bins.length h 0

/-- Inner loop of `histogram_sort_count` (lines 510-516). -/
def sortCountInnerAux : Nat → Histogram → Nat → Nat → Histogram
  | 0, h, _, _ => h
  | fuel + 1, h, n, m =>
      if m < h.bins.length then
        if (h.bins.getD m defaultBin).count < (h.bins.getD n defaultBin).count then
          sortCountInnerAux fuel (histogram_swap_bins h m n) n (m + 1)
        else sortCountInnerAux fuel h n (m + 1)
      else h

/-- Outer loop of `histogram_sort_count`. -/
def sortCountOuterAux : Nat → Histogram → Nat → Histogram
  | 0, h, _ => h
  | fuel + 1, h, n =>
      if n + 1 < h.bins.length then
        sortCountOuterAux fuel
          (sortCountInnerAux (h.bins.length - (n + 1)) h n (n + 1)) (n + 1)
      else h

/-- `histogram_sort_count` (lines 507-517). -/
def histogram_sort_count (h : Histogram) : Histogram :=
  if h.bins.length < 2 then h else sortCountOuterAux h.bins.length h 0

/-- The analyzer's project-wide tolerance 0.2 (line 557). -/
def TOLERANCE : ℚ := mkRat 1 5

/-- The modulation kinds the analyzer can guess. -/
inductive Modulation where
  | NONE
  | OOK_PULSE_PPM_RAW
  | OOK_PULSE_PWM_RAW
  | OOK_PULSE_MANCHESTER_ZEROBIT
  | FSK_PULSE_PCM
  | OOK_PULSE_PWM_PRECISE
deriving DecidableEq, Repr

/-- The analyzer's output: chosen modulation and timing thresholds (the
`protocol_state` fields set by `pulse_analyzer`, zero-initialized). -/
structure DeviceGuess where
  modulation : Modulation
  short_limit : Int
  long_limit : Int
  reset_limit : Int
  sync_width : Int
deriving DecidableEq, Repr

/-- The analyzer's pulse histogram: sum over all `num_pulses` pulse widths
(line 577), fuse (line 582), sort by mean (line 604), and delete the zero
bin left by the FSK sentinel (line 606). -/
def analyzerPulseHist (data : PulseData) : Histogram :=
  let hp := histogram_sum Histogram.empty
    ((List.range data.num_pulses).map data.pulse) TOLERANCE
  let hp := histogram_fuse_bins hp TOLERANCE
  let hp := histogram_sort_mean hp
  if (hp.bins.getD 0 defaultBin).mean = 0 then histogram_delete_bin hp 0 else hp

/-- The analyzer's gap histogram: sum over the first `num_pulses - 1` gaps
(line 578), fuse (line 583), sort by mean (line 605). -/
def analyzerGapHist (data : PulseData) : Histogram :=
  let hg := histogram_sum Histogram.empty
    ((List.range (data.num_pulses - 1)).map data.gap) TOLERANCE
  let hg := histogram_fuse_bins hg TOLERANCE
  histogram_sort_mean hg

/-- The analyzer's period histogram: sum over the first `num_pulses - 1`
pulse+gap periods (lines 566-568, 579), fuse (line 584); never sorted. -/
def analyzerPeriodHist (data : PulseData) : Histogram :=
  let hper := histogram_sum Histogram.empty
    ((List.range (data.num_pulses - 1)).map (fun n => data.pulse n + data.gap n))
    TOLERANCE
  histogram_fuse_bins hper TOLERANCE

/-- The classification chain of `pulse_analyzer` (lines 608-668): the ordered
first-match rules producing the guessed modulation and thresholds. -/
def pulse_analyzer_classify (data : PulseData) : DeviceGuess :=
  let hp := analyzerPulseHist data
  let hg := analyzerGapHist data
  let hper := analyzerPeriodHist data
  let p : Nat → HistBin := fun i => hp.bins.getD i defaultBin
  let g : Nat → HistBin := fun i => hg.bins.getD i defaultBin
  if data.num_pulses = 1 then
    ⟨.NONE, 0, 0, 0, 0⟩
  else if hp.bins.length = 1 ∧ hg.bins.length = 1 then
    ⟨.NONE, 0, 0, 0, 0⟩
  else if hp.bins.length = 1 ∧ hg.bins.length > 1 then
    ⟨.OOK_PULSE_PPM_RAW, cdiv ((g 0).mean + (g 1).mean) 2, (g 1).max + 1,
      (g (hg.bins.length - 1)).max + 1, 0⟩
  else if hp.bins.length = 2 ∧ hg.bins.length = 1 then
    ⟨.OOK_PULSE_PWM_RAW, cdiv ((p 0).mean + (p 1).mean) 2,
      (g (hg.bins.length - 1)).max + 1, (g (hg.bins.length - 1)).max + 1, 0⟩
  else if hp.bins.length = 2 ∧ hg.bins.length = 2 ∧ hper.bins.length = 1 then
    ⟨.OOK_PULSE_PWM_RAW, cdiv ((p 0).mean + (p 1).mean) 2,
      (g (hg.bins.length - 1)).max + 1, (g (hg.bins.length - 1)).max + 1, 0⟩
  else if hp.bins.length = 2 ∧ hg.bins.length = 2 ∧ hper.bins.length = 3 then
    ⟨.OOK_PULSE_MANCHESTER_ZEROBIT, min (p 0).mean (p 1).mean, 0,
      (g (hg.bins.length - 1)).max + 1, 0⟩
  else if hp.bins.length = 2 ∧ hg.bins.length ≥ 3 then
    ⟨.OOK_PULSE_PWM_RAW, cdiv ((p 0).mean + (p 1).mean) 2, (g 1).max + 1,
      (g (hg.bins.length - 1)).max + 1, 0⟩
  else if hp.bins.length ≥ 3 ∧ hg.bins.length ≥ 3 ∧
      |(p 1).mean - 2 * (p 0).mean| ≤ cdiv (p 0).mean 8 ∧
      |(p 2).mean - 3 * (p 0).mean| ≤ cdiv (p 0).mean 8 ∧
      |(g 0).mean - (p 0).mean| ≤ cdiv (p 0).mean 8 ∧
      |(g 1).mean - 2 * (p 0).mean| ≤ cdiv (p 0).mean 8 ∧
      |(g 2).mean - 3 * (p 0).mean| ≤ cdiv (p 0).mean 8 then
    ⟨.FSK_PULSE_PCM, (p 0).mean, (p 0).mean, (p 0).mean * 1024, 0⟩
  else if hp.bins.length = 3 then
    let hp2 := histogram_sort_count hp
    let p1 := (hp2.bins.getD 1 defaultBin).mean
    let p2 := (hp2.bins.getD 2 defaultBin).mean
    ⟨.OOK_PULSE_PWM_PRECISE, min p1 p2, max p1 p2,
      (g (hg.bins.length - 1)).max + 1, (hp2.bins.getD 0 defaultBin).mean⟩
  else ⟨.NONE, 0, 0, 0, 0⟩

/-- The exact guard of the PCM rule as the code tests it (line 643-649):
bins 1 and 2 of the pulse histogram are 2 and 3 times the smallest pulse
bin, and the first three gap bins are 1, 2, 3 times it, all within
±`P[0].mean/8`; pulse bins beyond index 2 are NOT examined. -/
def code_pcm_condition (data : PulseData) : Prop :=
  data.num_pulses ≠ 1 ∧
  3 ≤ (analyzerPulseHist data).bins.length ∧
  3 ≤ (analyzerGapHist data).bins.length ∧
  |((analyzerPulseHist data).bins.getD 1 defaultBin).mean -
      2 * ((analyzerPulseHist data).bins.getD 0 defaultBin).mean| ≤
    cdiv ((analyzerPulseHist data).bins.getD 0 defaultBin).mean 8 ∧
  |((analyzerPulseHist data).bins.getD 2 defaultBin).mean -
      3 * ((analyzerPulseHist data).bins.getD 0 defaultBin).mean| ≤
    cdiv ((analyzerPulseHist data).bins.getD 0 defaultBin).mean 8 ∧
  |((analyzerGapHist data).bins.getD 0 defaultBin).mean -
      ((analyzerPulseHist data).bins.getD 0 defaultBin).mean| ≤
    cdiv ((analyzerPulseHist data).bins.getD 0 defaultBin).mean 8 ∧
  |((analyzerGapHist data).bins.getD 1 defaultBin).mean -
      2 * ((analyzerPulseHist data).bins.getD 0 defaultBin).mean| ≤
    cdiv ((analyzerPulseHist data).bins.getD 0 defaultBin).mean 8 ∧
  |((analyzerGapHist data).bins.getD 2 defaultBin).mean -
      3 * ((analyzerPulseHist data).bins.getD 0 defaultBin).mean| ≤
    cdiv ((analyzerPulseHist data).bins.getD 0 defaultBin).mean 8

instance (data : PulseData) : Decidable (code_pcm_condition data) := by
  unfold code_pcm_condition; infer_instance

/-- Modelled from the spec: the PCM rule as the spec's table states it — "all
pulses and first three gaps are k·P[0].mean for k ∈ {1,2,3} within
±P[0].mean/8" — i.e. EVERY pulse bin must be such a multiple. -/
def spec_pcm_condition (data : PulseData) : Prop :=
  data.num_pulses ≠ 1 ∧
  3 ≤ (analyzerPulseHist data).bins.length ∧
  3 ≤ (analyzerGapHist data).bins.length ∧
  (∀ i, i < (analyzerPulseHist data).bins.length →
    ∃ k ∈ [1, 2, 3],
      |((analyzerPulseHist data).bins.getD i defaultBin).mean -
          k * ((analyzerPulseHist data).bins.getD 0 defaultBin).mean| ≤
        cdiv ((analyzerPulseHist data).bins.getD 0 defaultBin).mean 8) ∧
  (∀ i, i < min 3 (analyzerGapHist data).bins.length →
    ∃ k ∈ [1, 2, 3],
      |((analyzerGapHist data).bins.getD i defaultBin).mean -
          k * ((analyzerPulseHist data).bins.getD 0 defaultBin).mean| ≤
        cdiv ((analyzerPulseHist data).bins.getD 0 defaultBin).mean 8)

instance (data : PulseData) : Decidable (spec_pcm_condition data) := by
  unfold spec_pcm_condition; infer_instance

set_option maxHeartbeats 1000000 in
/-- C7 (amended): the analyzer classifies a packet as PCM-NRZ exactly when no
earlier rule matched (under ≥3 pulse bins only the single-pulse rule could,
and it cannot), there are at least 3 pulse bins and 3 gap bins, and the
SECOND and THIRD pulse bins are 2× and 3× the smallest pulse bin while the
first three gap bins are 1×, 2×, 3× it, all within ±P[0].mean/8 — pulse bins
beyond the third are not examined; in that case short_limit = long_limit =
P[0].mean and reset_limit = P[0].mean·1024. -/
theorem C7_pcm_classification (data : PulseData) :
    ((pulse_analyzer_classify data).modulation = Modulation.FSK_PULSE_PCM ↔
      code_pcm_condition data) ∧
    (code_pcm_condition data →
      pulse_analyzer_classify data =
        ⟨Modulation.FSK_PULSE_PCM,
         ((analyzerPulseHist data).bins.getD 0 defaultBin).mean,
         ((analyzerPulseHist data).bins.getD 0 defaultBin).mean,
         ((analyzerPulseHist data).bins.getD 0 defaultBin).mean * 1024, 0⟩) := by
  unfold pulse_analyzer_classify code_pcm_condition
  dsimp only
  split_ifs with g1 g2 g3 g4 g5 g6 g7 g8 g9
  · exact ⟨⟨fun hmod => absurd hmod (by decide), fun hc => (hc.1 g1).elim⟩,
      fun hc => (hc.1 g1).elim⟩
  · exact ⟨⟨fun hmod => absurd hmod (by decide),
      fun hc => absurd hc.2.1 (by omega)⟩, fun hc => absurd hc.2.1 (by omega)⟩
  · exact ⟨⟨fun hmod => absurd hmod (by decide),
      fun hc => absurd hc.2.1 (by omega)⟩, fun hc => absurd hc.2.1 (by omega)⟩
  · exact ⟨⟨fun hmod => absurd hmod (by decide),
      fun hc => absurd hc.2.1 (by omega)⟩, fun hc => absurd hc.2.1 (by omega)⟩
  · exact ⟨⟨fun hmod => absurd hmod (by decide),
      fun hc => absurd hc.2.1 (by omega)⟩, fun hc => absurd hc.2.1 (by omega)⟩
  · exact ⟨⟨fun hmod => absurd hmod (by decide),
      fun hc => absurd hc.2.1 (by omega)⟩, fun hc => absurd hc.2.1 (by omega)⟩
  · exact ⟨⟨fun hmod => absurd hmod (by decide),
      fun hc => absurd hc.2.1 (by omega)⟩, fun hc => absurd hc.2.1 (by omega)⟩
  · exact ⟨⟨fun _ => ⟨g1, g8⟩, fun _ => rfl⟩, fun _ => rfl⟩
  · exact ⟨⟨fun hmod => absurd hmod (by decide), fun hc => absurd hc.2 g8⟩,
      fun hc => absurd hc.2 g8⟩
  · exact ⟨⟨fun hmod => absurd hmod (by decide), fun hc => absurd hc.2 g8⟩,
      fun hc => absurd hc.2 g8⟩

/-- A packet with pulse bins 100, 200, 300, 1000 and gap bins 100, 200, 300:
the fourth pulse bin is no small multiple of 100, yet the code's PCM rule
never looks at it. -/
def pcmWidePacket : PulseData :=
  { offset := 0, num_pulses := 4,
    pulse := fun n => [100, 200, 300, 1000].getD n 0,
    gap := fun n => [100, 200, 300, 999].getD n 0,
    ook_low_estimate := 0, ook_high_estimate := 0, fsk_f1_est := 0, fsk_f2_est := 0 }

/-- C7 counterexample: the analyzer classifies `pcmWidePacket` as PCM-NRZ
although not all of its pulse bins are 1×/2×/3× multiples of P[0].mean (bin 3
has mean 1000), so the spec's "all pulses" condition does not hold: the
claimed "exactly when" equivalence fails. -/
theorem C7_counterexample :
    (pulse_analyzer_classify pcmWidePacket).modulation = Modulation.FSK_PULSE_PCM ∧
    ¬ spec_pcm_condition pcmWidePacket := by
  constructor <;> decide

/-- A packet with pulse bins 100, 200, 300 and gap bins 100, 200, 300. -/
def pcmGoodPacket : PulseData :=
  { offset := 0, num_pulses := 4,
    pulse := fun n => [100, 200, 300, 100].getD n 0,
    gap := fun n => [100, 200, 300, 999].getD n 0,
    ook_low_estimate := 0, ook_high_estimate := 0, fsk_f1_est := 0, fsk_f2_est := 0 }

/-- Witness for the amended C7 at a concrete PCM packet. -/
theorem C7_witness :
    code_pcm_condition pcmGoodPacket ∧
    pulse_analyzer_classify pcmGoodPacket =
      ⟨Modulation.FSK_PULSE_PCM,
       ((analyzerPulseHist pcmGoodPacket).bins.getD 0 defaultBin).mean,
       ((analyzerPulseHist pcmGoodPacket).bins.getD 0 defaultBin).mean,
       ((analyzerPulseHist pcmGoodPacket).bins.getD 0 defaultBin).mean * 1024, 0⟩ :=
  ⟨by decide, (C7_pcm_classification pcmGoodPacket).2 (by decide)⟩

/-- The `unsigned` value of `num_pulses - 1` (`num_pulses` is a `uint32_t`,
so subtraction wraps modulo 2^32). -/
def u32sub1 (n : Nat) : Nat := (n + 4294967295) % 4294967296

/-- The array indices `pulse_analyzer` dereferences before any histogram
work, as a function of the packet's `num_pulses` (arrays are
`PD_MAX_PULSES`-sized):
* the period loop reads `pulse[n]`, `gap[n]` for `n < num_pulses`
  (lines 566-569);
* line 570 reads `gap[num_pulses - 1]` with unsigned index arithmetic;
* the gap and period histograms read indices `n < num_pulses - 1` (unsigned,
  lines 578-579). -/
def pulse_analyzer_reads_in_bounds (num_pulses : Nat) : Prop :=
  (∀ n, n < num_pulses → n < PD_MAX_PULSES) ∧
  u32sub1 num_pulses < PD_MAX_PULSES ∧
  (∀ n, n < u32sub1 num_pulses → n < PD_MAX_PULSES)

/-- C10: `pulse_analyzer` requires `num_pulses ≥ 1`: for every packet with
`1 ≤ num_pulses ≤ PD_MAX_PULSES` all of its array reads are in bounds, while
for `num_pulses = 0` the unsigned `num_pulses - 1` wraps to 2^32 - 1 and the
read of `gap[num_pulses - 1]` (and the whole gap/period histogram range) is
out of bounds. -/
theorem C10_analyzer_bounds (num_pulses : Nat) (hcap : num_pulses ≤ PD_MAX_PULSES) :
    (1 ≤ num_pulses → pulse_analyzer_reads_in_bounds num_pulses) ∧
    (num_pulses = 0 → ¬ pulse_analyzer_reads_in_bounds num_pulses) := by
  unfold pulse_analyzer_reads_in_bounds u32sub1 PD_MAX_PULSES
  unfold PD_MAX_PULSES at hcap
  constructor
  · intro h1
    have hw : (num_pulses + 4294967295) % 4294967296 = num_pulses - 1 := by
      omega
    rw [hw]
    exact ⟨fun n hn => by omega, by omega, fun n hn => by omega⟩
  · intro h0
    subst h0
    intro hb
    have := hb.2.1
    omega

/-- Witness for C10 at `num_pulses = 5` and at the out-of-range case 0. -/
theorem C10_witness :
    pulse_analyzer_reads_in_bounds 5 ∧ ¬ pulse_analyzer_reads_in_bounds 0 :=
  ⟨(C10_analyzer_bounds 5 (by decide)).1 (by decide),
   (C10_analyzer_bounds 0 (by decide)).2 rfl⟩
